import Mathlib

/-!
Verification of the canonicalization / content-addressing protocol, the parity
adapter and the event-stream parser of the `nooterra_api_sdk` Python client
(`src/packages/api-sdk-python/nooterra_api_sdk/client.py`), via a shallow
embedding in Lean.

Modelling conventions:
* Python values reachable by this code are embedded as `PyVal`
  (`None`, `bool`, `int`, `str`, `list`, `dict`).  Python `dict`s are
  association lists in insertion order whose keys are strings; genuine Python
  dicts cannot contain a duplicate key, which enters theorems as a
  `Nodup`-keys hypothesis where the proof needs it.  `float` values are not
  modelled: none of the verified claims exercises them.
* Python string comparison is lexicographic on Unicode code points, embedded
  by `strLeb` on `Char.toNat` lists.  Python's `sorted` is a stable sort
  comparing keys only, and any two stable sorts with the same comparator
  compute the same list, so it is embedded as `List.insertionSort` (stable).
* External primitives (`hashlib.sha256`, ISO-8601 parsing via `datetime`,
  `json.loads`, `uuid`) are parameters of the definitions that use them; no
  verified claim depends on their output values.
-/

inductive PyVal : Type where
  | none : PyVal
  | bool (b : Bool) : PyVal
  | int (n : Int) : PyVal
  | str (s : String) : PyVal
  | list (items : List PyVal) : PyVal
  | dict (entries : List (String × PyVal)) : PyVal

/-- Python `value is None`. -/
def PyVal.isNone : PyVal → Bool
  | .none => true
  | _ => false

/-- Python `isinstance(value, str)`. -/
def PyVal.isStr : PyVal → Bool
  | .str _ => true
  | _ => false

/-- Python `isinstance(value, dict)`. -/
def PyVal.isDict : PyVal → Bool
  | .dict _ => true
  | _ => false

/-- Python `d[k]` lookup on a dict (first binding; real dicts have unique keys). -/
def pyLookup (entries : List (String × PyVal)) (key : String) : Option PyVal :=
  match entries with
  | [] => Option.none
  | (k, v) :: rest => if k = key then some v else pyLookup rest key

/-- Python `d.get(key)`: `None` when the key is absent or the value is not a dict. -/
def PyVal.get (v : PyVal) (key : String) : PyVal :=
  match v with
  | .dict entries => (pyLookup entries key).getD .none
  | _ => .none

/-- Python `d.get(key, default)`: the stored value when the key is present
(even if it is `None`), the default otherwise. -/
def PyVal.getD (v : PyVal) (key : String) (default : PyVal) : PyVal :=
  match v with
  | .dict entries =>
      match pyLookup entries key with
      | some value => value
      | Option.none => default
  | _ => default

/-- Python truthiness `bool(value)` over the embedded universe. -/
def pyTruthy : PyVal → Bool
  | .none => false
  | .bool b => b
  | .int n => n != 0
  | .str s => s ≠ ""
  | .list items => !items.isEmpty
  | .dict entries => !entries.isEmpty

/-- Python `str.strip()` (no arguments), over the ASCII-whitespace fragment:
drop leading and trailing whitespace.  (Python also strips the rarer Unicode
space characters; no value in this client's flows contains them.) -/
def pyStrip (s : String) : String :=
  String.mk (((s.data.dropWhile Char.isWhitespace).reverse.dropWhile
    Char.isWhitespace).reverse)

/-- Python `str.lower()` / `str.upper()` over the ASCII fragment,
structurally on the char lists. -/
def pyLower (s : String) : String := String.mk (s.data.map Char.toLower)

def pyUpper (s : String) : String := String.mk (s.data.map Char.toUpper)

/-- Python `str.startswith(prefixStr)`, structurally on the char lists. -/
def pyStartsWith (s prefixStr : String) : Bool :=
  s.data.take prefixStr.data.length == prefixStr.data

/-- Lexicographic `≤` on code-point lists: Python's `<=` on strings. -/
def strLeb : List Char → List Char → Bool
  | [], _ => true
  | _ :: _, [] => false
  | a :: as, b :: bs =>
      if a.toNat < b.toNat then true
      else if b.toNat < a.toNat then false
      else strLeb as bs

/-- Key order used by `sorted(value.keys())` in `_canonicalize`. -/
def keyLe (a b : String × PyVal) : Prop := strLeb a.1.data b.1.data = true

instance : DecidableRel keyLe := fun a b => inferInstanceAs (Decidable (_ = true))

/-- `sorted` over dict entries by key: stable, comparing keys only, hence
extensionally the sort performed by `for key in sorted(value.keys())`. -/
def sortByKey (es : List (String × PyVal)) : List (String × PyVal) :=
  es.insertionSort keyLe

theorem sizeOf_sortByKey (es : List (String × PyVal)) : sizeOf (sortByKey es) = sizeOf es :=
  (es.perm_insertionSort keyLe).sizeOf_eq_sizeOf

mutual

/-- `_canonicalize` (client.py lines 40-60) restricted to the float-free
universe: `None`, `bool`, `int` and `str` pass through, lists map, dicts are
rewritten in sorted key order, dropping a key whose value canonicalizes to
`None` unless the original value was itself `None`. -/
def canonicalize : PyVal → PyVal
  | .none => .none
  | .bool b => .bool b
  | .int n => .int n
  | .str s => .str s
  | .list items => .list (canonList items)
  | .dict entries => .dict (canonEntries (sortByKey entries))
  termination_by v => sizeOf v
  decreasing_by
  all_goals simp_wf
  rw [sizeOf_sortByKey]; omega

/-- `[_canonicalize(item) for item in value]`. -/
def canonList : List PyVal → List PyVal
  | [] => []
  | item :: rest => canonicalize item :: canonList rest
  termination_by xs => sizeOf xs
  decreasing_by
  all_goals simp_wf <;> omega

/-- The body of the `for key in sorted(value.keys())` loop of `_canonicalize`:
keep `(key, normalized)` iff `normalized is not None or value[key] is None`. -/
def canonEntries : List (String × PyVal) → List (String × PyVal)
  | [] => []
  | (key, value) :: rest =>
      (let normalized := canonicalize value
       if !normalized.isNone || value.isNone then [(key, normalized)] else []) ++
        canonEntries rest
  termination_by es => sizeOf es
  decreasing_by
  all_goals simp_wf <;> omega

end

/-- Hex digit used by `json.dumps` for `\u00XX` escapes. -/
def hexDigit (n : Nat) : String :=
  String.singleton ("0123456789abcdef".data.getD n '0')

/-- `json.dumps` escaping of a single character with `ensure_ascii=False`:
`"`, `\` and the C0 control characters are escaped, everything else passes
through unchanged. -/
def escapeJsonChar (c : Char) : String :=
  if c = '"' then "\\\""
  else if c = '\\' then "\\\\"
  else if c = '\n' then "\\n"
  else if c = '\r' then "\\r"
  else if c = '\t' then "\\t"
  else if c.toNat = 8 then "\\b"
  else if c.toNat = 12 then "\\f"
  else if c.toNat < 32 then "\\u00" ++ hexDigit (c.toNat / 16) ++ hexDigit (c.toNat % 16)
  else String.singleton c

def escapeJsonString (s : String) : String :=
  "\"" ++ String.join (s.data.map escapeJsonChar) ++ "\""

mutual

/-- `json.dumps(value, separators=(",", ":"), ensure_ascii=False)` over the
embedded universe (no spaces after separators, UTF-8 passthrough). -/
def jsonDumps : PyVal → String
  | .none => "null"
  | .bool true => "true"
  | .bool false => "false"
  | .int n => toString n
  | .str s => escapeJsonString s
  | .list items => "[" ++ jsonDumpsList items ++ "]"
  | .dict entries => "\x7b" ++ jsonDumpsEntries entries ++ "\x7d"
  termination_by v => sizeOf v
  decreasing_by
  all_goals simp_wf <;> omega

def jsonDumpsList : List PyVal → String
  | [] => ""
  | [item] => jsonDumps item
  | item :: rest => jsonDumps item ++ "," ++ jsonDumpsList rest
  termination_by xs => sizeOf xs
  decreasing_by
  all_goals simp_wf <;> omega

def jsonDumpsEntries : List (String × PyVal) → String
  | [] => ""
  | [(key, value)] => escapeJsonString key ++ ":" ++ jsonDumps value
  | (key, value) :: rest =>
      escapeJsonString key ++ ":" ++ jsonDumps value ++ "," ++ jsonDumpsEntries rest
  termination_by es => sizeOf es
  decreasing_by
  all_goals simp_wf <;> omega

end

/-- `_canonical_json_dumps` (client.py lines 63-64). -/
def canonicalJsonDumps (value : PyVal) : String :=
  jsonDumps (canonicalize value)

/-- Character escaping in Python's `repr` of a string (over the ASCII-printable
fragment; C0 controls and DEL appear as `\xXX` hex escapes). -/
def pyReprChar (quote : Char) (c : Char) : String :=
  if c = '\\' then "\\\\"
  else if c = quote then "\\" ++ String.singleton quote
  else if c = '\n' then "\\n"
  else if c = '\r' then "\\r"
  else if c = '\t' then "\\t"
  else if c.toNat < 32 || c.toNat = 127 then
    "\\x" ++ hexDigit (c.toNat / 16) ++ hexDigit (c.toNat % 16)
  else String.singleton c

/-- Python `repr` of a string: single-quoted, switching to double quotes when
the string contains `'` but no `"`. -/
def pyReprStr (s : String) : String :=
  let quote : Char := if s.contains '\'' && !s.contains '"' then '"' else '\''
  String.singleton quote ++ String.join (s.data.map (pyReprChar quote)) ++ String.singleton quote

mutual

/-- Python `repr(value)` over the embedded universe. -/
def pyRepr : PyVal → String
  | .none => "None"
  | .bool true => "True"
  | .bool false => "False"
  | .int n => toString n
  | .str s => pyReprStr s
  | .list items => "[" ++ pyReprList items ++ "]"
  | .dict entries => "\x7b" ++ pyReprEntries entries ++ "\x7d"
  termination_by v => sizeOf v
  decreasing_by
  all_goals simp_wf <;> omega

def pyReprList : List PyVal → String
  | [] => ""
  | [item] => pyRepr item
  | item :: rest => pyRepr item ++ ", " ++ pyReprList rest
  termination_by xs => sizeOf xs
  decreasing_by
  all_goals simp_wf <;> omega

def pyReprEntries : List (String × PyVal) → String
  | [] => ""
  | [(key, value)] => pyReprStr key ++ ": " ++ pyRepr value
  | (key, value) :: rest =>
      pyReprStr key ++ ": " ++ pyRepr value ++ ", " ++ pyReprEntries rest
  termination_by es => sizeOf es
  decreasing_by
  all_goals simp_wf <;> omega

end

/-- Python `str(value)`: identity on strings, `repr` otherwise. -/
def pyStr : PyVal → String
  | .str s => s
  | v => pyRepr v

/-- `_assert_non_empty_string` (client.py lines 13-16): raises `ValueError`
unless the value is a string with non-blank content; returns it unstripped. -/
def assertNonEmptyString (value : PyVal) (name : String) : Except String String :=
  match value with
  | .str s => if pyStrip s = "" then .error (name ++ " must be a non-empty string") else .ok s
  | _ => .error (name ++ " must be a non-empty string")

def isLowerHexChar (c : Char) : Bool :=
  "0123456789abcdef".data.contains c

/-- `_assert_sha256_hex` (client.py lines 19-23): non-strings reduce to `""`;
strings are stripped and lower-cased, then required to be exactly 64 hex
characters; the NORMALIZED (lower-case) form is returned. -/
def assertSha256Hex (value : PyVal) (name : String) : Except String String :=
  let raw := match value with
    | .str s => pyLower (pyStrip s)
    | _ => ""
  if raw.length = 64 && raw.data.all isLowerHexChar then .ok raw
  else .error (name ++ " must be sha256 hex")

/-- `_as_non_empty_string_or_none` (client.py lines 26-30) on an embedded
value: `None` for non-strings and blank strings, the STRIPPED string otherwise. -/
def pyStrOrNone (value : PyVal) : Option String :=
  match value with
  | .str s => let trimmed := pyStrip s; if trimmed = "" then Option.none else some trimmed
  | _ => Option.none

/-- `_as_non_empty_string_or_none` on an `Optional[str]` argument. -/
def optStrOrNone (value : Option String) : Option String :=
  match value with
  | some s => let trimmed := pyStrip s; if trimmed = "" then Option.none else some trimmed
  | Option.none => Option.none

/-- Python `value or fallback` for an optional string operand, where `None`
and `""` are falsy. -/
def pyOrStr (value : Option String) (fallback : Option String) : Option String :=
  match value with
  | some s => if s = "" then fallback else some s
  | Option.none => fallback

/-- A Nooterra parity error (`NooterraParityError` plus the normalization done
by `_create_parity_error`, client.py lines 224-286). -/
structure ParityError where
  status : Int
  code : Option String
  message : String
  details : PyVal
  requestId : Option String
  retryable : Bool
  attempts : Int
  idempotencyKey : Option String
  transport : String
  operationId : Option String

/-- `_create_parity_error` composed with `NooterraParityError.__init__`:
blank message/code fall back to defaults, identifier-like fields are
normalized with `_as_non_empty_string_or_none`, `attempts` is clamped to be
at least 1. -/
def createParityError (status : Int) (code : String) (message : String) (details : PyVal)
    (requestId : Option String) (retryable : Bool) (attempts : Int)
    (idempotencyKey : Option String) (transport : String) (operationId : Option String) :
    ParityError :=
  { status
    code := some ((optStrOrNone (some code)).getD "PARITY_REQUEST_REJECTED")
    message := (optStrOrNone (some message)).getD ("request failed (" ++ toString status ++ ")")
    details
    requestId := optStrOrNone requestId
    retryable
    attempts := if attempts > 0 then attempts else 1
    idempotencyKey := optStrOrNone idempotencyKey
    transport
    operationId := optStrOrNone operationId }

/-- `_raise_parity_validation_error` (client.py lines 289-309): status 400,
non-retryable, one attempt, no request id. -/
def parityValidationError (code message transport : String) (operationId : Option String)
    (idempotencyKey : Option String) (details : PyVal) : ParityError :=
  createParityError 400 code message details Option.none false 1 idempotencyKey transport
    operationId

/-- The operation descriptor produced by `_resolve_parity_operation`. -/
structure ResolvedOp where
  transport : String
  operationId : String
  method : Option String
  path : Option String
  toolName : Option String
  requiredFields : List String
  sha256Fields : List String
  idempotencyRequired : Bool
  expectedPrevChainHashRequired : Bool

/-- `_resolve_parity_operation` (client.py lines 312-356); `.error` models the
`ValueError`s it raises. -/
def resolveParityOperation (operation : PyVal) (transport : String) :
    Except String ResolvedOp :=
  if !operation.isDict then .error "operation must be an object"
  else
    match pyStrOrNone (operation.get "operationId") with
    | Option.none => .error "operation.operationId is required"
    | some operationId =>
        let requiredFields := match operation.get "requiredFields" with
          | .list items => items.map pyStr
          | _ => []
        let sha256Fields := match operation.get "sha256Fields" with
          | .list items => items.map pyStr
          | _ => []
        let idempotencyRequired :=
          if (operation.get "idempotencyRequired").isNone then true
          else pyTruthy (operation.get "idempotencyRequired")
        let expectedPrevChainHashRequired := pyTruthy (operation.get "expectedPrevChainHashRequired")
        if transport = "http" then
          match pyStrOrNone (operation.get "method"), pyStrOrNone (operation.get "path") with
          | Option.none, _ => .error "operation.method is required for http parity adapter"
          | some _, Option.none => .error "operation.path is required for http parity adapter"
          | some method, some path =>
              if !pyStartsWith path "/" then
                .error "operation.path is required for http parity adapter"
              else
                .ok { transport, operationId, method := some (pyUpper method), path := some path,
                      toolName := Option.none, requiredFields, sha256Fields,
                      idempotencyRequired, expectedPrevChainHashRequired }
        else
          match pyStrOrNone (operation.get "toolName") with
          | Option.none => .error "operation.toolName is required for mcp parity adapter"
          | some toolName =>
              .ok { transport, operationId, method := Option.none, path := Option.none,
                    toolName := some toolName, requiredFields, sha256Fields,
                    idempotencyRequired, expectedPrevChainHashRequired }

/-- Python `str.split(sep)` for a one-character separator, structurally on
char lists (`"".split(sep)` is `[""]`). -/
def pySplitChar (sep : Char) : List Char → List (List Char)
  | [] => [[]]
  | c :: rest =>
      if c = sep then [] :: pySplitChar sep rest
      else
        match pySplitChar sep rest with
        | [] => [[c]]
        | part :: parts => (c :: part) :: parts

def pySplit (s : String) (sep : Char) : List String :=
  (pySplitChar sep s.data).map String.mk

/-- `_get_value_at_path`'s walk over the split, non-empty path parts. -/
def walkPath : PyVal → List String → PyVal
  | cursor, [] => cursor
  | cursor, part :: rest =>
      match cursor with
      | .dict entries =>
          match pyLookup entries part with
          | some value => walkPath value rest
          | Option.none => .none
      | _ => .none

/-- `_get_value_at_path` (client.py lines 160-167). -/
def getValueAtPath (target : PyVal) (fieldPath : String) : PyVal :=
  walkPath target ((pySplit fieldPath '.').filter (fun part => part ≠ ""))

/-- The failure test of the `requiredFields` loop in `_validate_parity_payload`:
`value is None or (isinstance(value, str) and value.strip() == "")`. -/
def isMissingRequired (value : PyVal) : Bool :=
  match value with
  | .none => true
  | .str s => pyStrip s = ""
  | _ => false

/-- The `for field_path in operation.get("requiredFields", [])` loop of
`_validate_parity_payload` (client.py lines 375-385). -/
def checkRequiredFields (payload : PyVal) (transport : String) (operationId : Option String)
    (idempotencyKey : Option String) : List String → Except ParityError Unit
  | [] => .ok ()
  | fieldPath :: rest =>
      if isMissingRequired (getValueAtPath payload fieldPath) then
        .error (parityValidationError "PARITY_REQUIRED_FIELD_MISSING"
          ("payload." ++ fieldPath ++ " is required") transport operationId idempotencyKey
          (.dict [("field", .str fieldPath)]))
      else checkRequiredFields payload transport operationId idempotencyKey rest

/-- The `for field_path in operation.get("sha256Fields", [])` loop of
`_validate_parity_payload` (client.py lines 386-398). -/
def checkSha256Fields (payload : PyVal) (transport : String) (operationId : Option String)
    (idempotencyKey : Option String) : List String → Except ParityError Unit
  | [] => .ok ()
  | fieldPath :: rest =>
      match assertSha256Hex (getValueAtPath payload fieldPath) ("payload." ++ fieldPath) with
      | .error _ =>
          .error (parityValidationError "PARITY_SHA256_FIELD_INVALID"
            ("payload." ++ fieldPath ++ " must be sha256 hex") transport operationId
            idempotencyKey (.dict [("field", .str fieldPath)]))
      | .ok _ => checkSha256Fields payload transport operationId idempotencyKey rest

/-- `_validate_parity_payload` (client.py lines 359-424).  `idempotencyKey` and
`expectedPrevChainHash` arrive already resolved by `invoke`. -/
def validateParityPayload (payload : PyVal) (rop : ResolvedOp) (transport : String)
    (idempotencyKey : Option String) (expectedPrevChainHash : Option String) :
    Except ParityError Unit := do
  if !payload.isDict then
    throw (parityValidationError "PARITY_PAYLOAD_REQUIRED" "payload must be an object"
      transport (some rop.operationId) idempotencyKey .none)
  checkRequiredFields payload transport (some rop.operationId) idempotencyKey rop.requiredFields
  checkSha256Fields payload transport (some rop.operationId) idempotencyKey rop.sha256Fields
  if rop.idempotencyRequired && (optStrOrNone idempotencyKey).isNone then
    throw (parityValidationError "PARITY_IDEMPOTENCY_KEY_REQUIRED" "idempotency_key is required"
      transport (some rop.operationId) Option.none .none)
  if rop.expectedPrevChainHashRequired && (optStrOrNone expectedPrevChainHash).isNone then
    throw (parityValidationError "PARITY_EXPECTED_PREV_CHAIN_HASH_REQUIRED"
      "expected_prev_chain_hash is required" transport (some rop.operationId) idempotencyKey .none)
  if (optStrOrNone expectedPrevChainHash).isSome then
    match assertSha256Hex ((expectedPrevChainHash.map PyVal.str).getD .none)
        "expected_prev_chain_hash" with
    | .error _ =>
        throw (parityValidationError "PARITY_EXPECTED_PREV_CHAIN_HASH_REQUIRED"
          "expected_prev_chain_hash must be sha256 hex" transport (some rop.operationId)
          idempotencyKey .none)
    | .ok _ => pure ()

/-- The exceptions the dispatch `try` block can catch: a raised
`NooterraParityError`, a raised plain `NooterraApiError`, or any other
exception (`isinstance` chain of `_coerce_parity_error`). -/
inductive PyExc where
  | parity (e : ParityError)
  | api (status : Int) (code : Option String) (message : String) (details : PyVal)
      (requestId : Option String)
  | other (typeName : String) (message : String)

/-- `_coerce_parity_error` (client.py lines 427-473). -/
def coerceParityError (exc : PyExc) (transport : String) (operationId : String)
    (requestId : String) (idempotencyKey : Option String) (attempt : Int) : ParityError :=
  match exc with
  | .parity e =>
      createParityError e.status ((pyOrStr e.code (some "PARITY_REQUEST_REJECTED")).getD
          "PARITY_REQUEST_REJECTED")
        e.message e.details (pyOrStr e.requestId (some requestId)) e.retryable attempt
        idempotencyKey transport (some operationId)
  | .api status code message details reqId =>
      createParityError status ((pyOrStr code (some "PARITY_REQUEST_REJECTED")).getD
          "PARITY_REQUEST_REJECTED")
        message details (pyOrStr reqId (some requestId)) false attempt
        idempotencyKey transport (some operationId)
  | .other typeName message =>
      createParityError 0 "PARITY_TRANSPORT_ERROR"
        (if message = "" then "transport error" else message)
        (.dict [("causeName", .str typeName)]) (some requestId) false attempt
        idempotencyKey transport (some operationId)

/-- Normalized adapter state after `_NooterraParityAdapterBase.__init__`
(client.py lines 476-494).  `retryDelay attempt` stands for the value of
`float(retry_delay_seconds)` resp. `float(retry_delay_seconds(attempt))`,
modelled over the integers; `freshRequestId` stands for the
`_random_request_id()` draw. -/
structure AdapterConfig where
  transport : String
  maxAttempts : Int
  retryStatusCodes : List Int
  retryCodes : List String
  retryDelay : Int → Int
  freshRequestId : String

/-- `_PARITY_DEFAULT_RETRY_STATUS_CODES` (client.py line 134). -/
def defaultRetryStatusCodes : List Int := [408, 409, 425, 429, 500, 502, 503, 504]

/-- `_NooterraParityAdapterBase._is_retryable` (client.py lines 496-505). -/
def isRetryable (cfg : AdapterConfig) (parityError : ParityError) : Bool :=
  if parityError.status ≤ 0 then true
  else if cfg.retryStatusCodes.contains parityError.status then true
  else
    match optStrOrNone parityError.code with
    | some code => cfg.retryCodes.contains (pyUpper code)
    | Option.none => false

/-- The dict returned by a transport `_invoke_once`, projected onto the keys
`invoke` reads (`raw.get`; an absent key is `.none`). -/
structure RawResponse where
  okField : PyVal
  status : PyVal
  requestId : PyVal
  code : PyVal
  message : PyVal
  details : PyVal
  body : PyVal
  headers : PyVal

/-- Outcome of one `_invoke_once` call: a returned dict, a returned non-dict
value, or a raised exception.  `invoke` consumes a transport as a function
from the attempt number to an outcome. -/
inductive AttemptResult where
  | resp (raw : RawResponse)
  | notDict
  | raises (exc : PyExc)

/-- Assignment into a `Dict[str, str]`: replace in place or append. -/
def recordSet (record : List (String × String)) (key value : String) :
    List (String × String) :=
  if record.any (fun e => e.1 = key) then
    record.map (fun e => if e.1 = key then (key, value) else e)
  else record ++ [(key, value)]

/-- `.get` on a `Dict[str, str]`. -/
def recordGet (record : List (String × String)) (key : String) : Option String :=
  (record.find? (fun e => e.1 = key)).map (fun e => e.2)

/-- `_normalize_headers_record` (client.py lines 149-157): non-dicts become
`{}`; `None` values are skipped; keys are lower-cased, values stringified. -/
def normalizeHeadersRecord (value : PyVal) : List (String × String) :=
  match value with
  | .dict entries =>
      entries.foldl
        (fun acc kv => if kv.2.isNone then acc else recordSet acc (pyLower kv.1) (pyStr kv.2)) []
  | _ => []

/-- `isinstance(status, int)` plus the value read: Python's `bool` is a
subclass of `int`, so booleans pass the check with values 0/1. -/
def pyIntClassValue : PyVal → Option Int
  | .int n => some n
  | .bool b => some (if b then 1 else 0)
  | _ => Option.none

/-- The success record returned by `invoke` (client.py lines 584-594). -/
structure InvokeSuccess where
  ok : Bool
  status : Int
  requestId : Option String
  body : PyVal
  headers : List (String × String)
  transport : String
  operationId : String
  idempotencyKey : Option String
  attempts : Int

/-- The `try` body of one iteration of the dispatch loop (client.py lines
540-594): call the transport, reject non-dict responses (502), normalize
headers, require an int-classed status (502), turn `ok`-false or
status ≥ 400 responses into a raised parity error, otherwise succeed. -/
def attemptOnce (cfg : AdapterConfig) (rop : ResolvedOp) (requestId : String)
    (idempotencyKey : Option String) (t : Int → AttemptResult) (attempt : Int) :
    Except PyExc InvokeSuccess :=
  match t attempt with
  | .raises exc => .error exc
  | .notDict =>
      .error (.parity (createParityError 502 "PARITY_RESPONSE_INVALID"
        "transport response must be an object" .none (some requestId) false 1
        idempotencyKey cfg.transport (some rop.operationId)))
  | .resp raw =>
      let headers := normalizeHeadersRecord raw.headers
      let requestIdOut := pyOrStr (pyStrOrNone raw.requestId) (recordGet headers "x-request-id")
      match pyIntClassValue raw.status with
      | Option.none =>
          .error (.parity (createParityError 502 "PARITY_RESPONSE_INVALID"
            "transport response missing valid status" .none
            (pyOrStr requestIdOut (some requestId)) false 1 idempotencyKey cfg.transport
            (some rop.operationId)))
      | some status =>
          if !pyTruthy raw.okField || status ≥ 400 then
            .error (.parity (createParityError status
              ((pyStrOrNone raw.code).getD "PARITY_REQUEST_REJECTED")
              ((pyStrOrNone raw.message).getD ("request failed (" ++ toString status ++ ")"))
              raw.details (pyOrStr requestIdOut (some requestId)) false 1 idempotencyKey
              cfg.transport (some rop.operationId)))
          else
            .ok { ok := true, status, requestId := requestIdOut, body := raw.body, headers,
                  transport := cfg.transport, operationId := rop.operationId,
                  idempotencyKey, attempts := attempt }

/-- How `invoke` can terminate: a parity error, or the `ValueError` that
`_resolve_retry_delay_seconds` raises on a negative delay (client.py lines
198-207), which propagates out of the `except` block uncaught. -/
inductive InvokeFailure where
  | parity (e : ParityError)
  | valueError (message : String)

/-- The `for attempt in range(1, self.max_attempts + 1)` loop of `invoke`
(client.py lines 539-610).  `fuel` is the number of loop iterations left;
`Option.none` models falling off the end of the loop into the fallback
raise after it. -/
def invokeLoop (cfg : AdapterConfig) (rop : ResolvedOp) (requestId : String)
    (idempotencyKey : Option String) (t : Int → AttemptResult) :
    Int → Nat → Option (Except InvokeFailure InvokeSuccess)
  | _, 0 => Option.none
  | attempt, fuel + 1 =>
      match attemptOnce cfg rop requestId idempotencyKey t attempt with
      | .ok success => some (.ok success)
      | .error exc =>
          let coerced := coerceParityError exc cfg.transport rop.operationId requestId
            idempotencyKey attempt
          let parityError :=
            { coerced with retryable := isRetryable cfg coerced, attempts := attempt }
          if !parityError.retryable || attempt ≥ cfg.maxAttempts then
            some (.error (.parity parityError))
          else if cfg.retryDelay attempt < 0 then
            some (.error (.valueError "retry_delay_seconds must be a non-negative number"))
          else invokeLoop cfg rop requestId idempotencyKey t (attempt + 1) fuel

/-- `_NooterraParityAdapterBase.invoke` (client.py lines 507-619): resolve the
operation (failure becomes a 400 `OPERATION_INVALID`), resolve request id and
idempotency key, validate the payload, then run the dispatch loop; the
post-loop fallback error corresponds to the `Option.none` loop outcome. -/
def invoke (cfg : AdapterConfig) (operation : PyVal) (payload : PyVal)
    (requestId : Option String) (idempotencyKey : Option String)
    (expectedPrevChainHash : Option String) (t : Int → AttemptResult) :
    Except InvokeFailure InvokeSuccess :=
  match resolveParityOperation operation cfg.transport with
  | .error msg =>
      .error (.parity (parityValidationError "PARITY_OPERATION_INVALID"
        (if msg = "" then "operation is invalid" else msg) cfg.transport
        (pyStrOrNone (operation.get "operationId")) idempotencyKey .none))
  | .ok rop =>
      let resolvedRequestId := (optStrOrNone requestId).getD cfg.freshRequestId
      let resolvedIdemKey := optStrOrNone idempotencyKey
      let resolvedPrevHash := optStrOrNone expectedPrevChainHash
      match validateParityPayload payload rop cfg.transport resolvedIdemKey resolvedPrevHash with
      | .error e => .error (.parity e)
      | .ok _ =>
          match invokeLoop cfg rop resolvedRequestId resolvedIdemKey t 1 cfg.maxAttempts.toNat with
          | some result => result
          | Option.none =>
              .error (.parity (createParityError 500 "PARITY_REQUEST_REJECTED" "request failed"
                .none (some resolvedRequestId) false 1 resolvedIdemKey cfg.transport
                (some rop.operationId)))

/-- `_decode_sse_data` (client.py lines 99-105), with `json.loads` as a
parameter (`Option.none` models a decode failure). -/
def decodeSseData (jsonLoads : String → Option PyVal) (rawData : String) : PyVal :=
  if rawData = "null" then .none
  else
    match jsonLoads rawData with
    | some value => value
    | Option.none => .str rawData

/-- Python `sep.join(parts)`. -/
def pyJoin (sep : String) : List String → String
  | [] => ""
  | [s] => s
  | s :: rest => s ++ sep ++ pyJoin sep rest

/-- Parser state of `stream_public_agent_cards` (client.py lines 1095-1099). -/
structure SseState where
  eventName : String
  eventId : Option String
  dataLines : List String
  sawCommentOnlyLine : Bool
  sawFieldLine : Bool

def initSseState : SseState :=
  { eventName := "message", eventId := Option.none, dataLines := [],
    sawCommentOnlyLine := false, sawFieldLine := false }

/-- One parsed server-sent event. -/
structure SseEvent where
  event : String
  id : Option String
  rawData : String
  data : PyVal

/-- `emit_event` (client.py lines 1101-1121): with no data lines, suppress the
event when a comment line was seen or no field line was seen, otherwise emit
with empty data; with data lines, join them and decode; always reset. -/
def emitSseEvent (jsonLoads : String → Option PyVal) (st : SseState) :
    Option SseEvent × SseState :=
  let out :=
    if st.dataLines.isEmpty then
      if st.sawCommentOnlyLine || !st.sawFieldLine then Option.none
      else some { event := st.eventName, id := st.eventId, rawData := "", data := .none }
    else
      let rawData := pyJoin "\n" st.dataLines
      some { event := st.eventName, id := st.eventId, rawData,
             data := decodeSseData jsonLoads rawData }
  (out, initSseState)

/-- Split a char list at the first `':'`, if any. -/
def partitionColonChars : List Char → Option (List Char × List Char)
  | [] => Option.none
  | c :: rest =>
      if c = ':' then some ([], rest)
      else
        match partitionColonChars rest with
        | some parts => some (c :: parts.1, parts.2)
        | Option.none => Option.none

/-- Python `line.partition(":")` (the separator flattened to an `Option`). -/
def partitionColon (line : String) : String × Option String :=
  match partitionColonChars line.data with
  | some parts => (String.mk parts.1, some (String.mk parts.2))
  | Option.none => (line, Option.none)

/-- The per-line step of the `while True` read loop (client.py lines
1128-1148), applied to a line already `rstrip`ped of `\r\n`. -/
def processSseLine (jsonLoads : String → Option PyVal) (st : SseState) (line : String) :
    Option SseEvent × SseState :=
  if line = "" then emitSseEvent jsonLoads st
  else if pyStartsWith line ":" then
    (Option.none, { st with sawCommentOnlyLine := true })
  else
    let st := { st with sawFieldLine := true }
    let parts := partitionColon line
    let value :=
      match parts.2 with
      | some v => if pyStartsWith v " " then String.mk (v.data.drop 1) else v
      | Option.none => ""
    if parts.1 = "event" then
      (Option.none, { st with eventName := if pyStrip value = "" then "message" else pyStrip value })
    else if parts.1 = "id" then
      (Option.none,
        { st with eventId := if pyStrip value = "" then Option.none else some (pyStrip value) })
    else if parts.1 = "data" then
      (Option.none, { st with dataLines := st.dataLines ++ [value] })
    else (Option.none, st)

/-- The read loop plus the final flush at end of stream (client.py lines
1123-1152), over the list of decoded lines of the response body. -/
def runSseLines (jsonLoads : String → Option PyVal) : SseState → List String → List SseEvent
  | st, [] =>
      match (emitSseEvent jsonLoads st).1 with
      | some event => [event]
      | Option.none => []
  | st, line :: rest =>
      let step := processSseLine jsonLoads st line
      step.1.toList ++ runSseLines jsonLoads step.2 rest

def runSse (jsonLoads : String → Option PyVal) (lines : List String) : List SseEvent :=
  runSseLines jsonLoads initSseState lines

/-- `Option String` back into the Python world (`None` / the string). -/
def optToPyStr (value : Option String) : PyVal :=
  (value.map PyVal.str).getD .none

/-- `{**d, key: value}`: replace in place when the key exists, append
otherwise (dict splats in this client are always applied to dicts). -/
def pyDictSet (v : PyVal) (key : String) (value : PyVal) : PyVal :=
  match v with
  | .dict entries =>
      if entries.any (fun e => e.1 = key) then
        .dict (entries.map (fun e => if e.1 = key then (key, value) else e))
      else .dict (entries ++ [(key, value)])
  | _ => .dict [(key, value)]

/-- Python `int(value)` over the embedded universe (string conversion is
modelled for optionally signed decimal literals; `bool` converts to 0/1). -/
def pyInt : PyVal → Except String Int
  | .int n => .ok n
  | .bool b => .ok (if b then 1 else 0)
  | .str s =>
      match (pyStrip s).toInt? with
      | some n => .ok n
      | Option.none => .error "invalid literal for int()"
  | _ => .error "int() argument must be a number or a string"

/-- Result of `NooterraClient.create_agreement`. -/
structure AgreementResult where
  agreement : PyVal
  agreementHash : String
  inputHash : String
  canonicalJson : String

/-- `NooterraClient.create_agreement` (client.py lines 1691-1721).
`sha256hex` stands for `_sha256_hex_utf8` and `normIso` for
`_normalize_iso_date (value, fallback_now, name)`; both are external
primitives whose outputs the claims do not depend on. -/
def createAgreement (sha256hex : String → String)
    (normIso : PyVal → Bool → String → Except String String) (params : PyVal) :
    Except String AgreementResult := do
  if !params.isDict then throw "params must be an object"
  let toolId ← assertNonEmptyString (params.get "toolId") "params.toolId"
  let callId ← assertNonEmptyString (params.get "callId") "params.callId"
  let manifestHash ← assertSha256Hex (params.get "manifestHash") "params.manifestHash"
  let createdAt ← normIso (params.get "createdAt") true "params.createdAt"
  let inputCanonical := canonicalJsonDumps (params.getD "input" (.dict []))
  let inputHash := sha256hex inputCanonical
  let agreementCore := canonicalize (.dict [
    ("schemaVersion", .str "ToolCallAgreement.v1"),
    ("toolId", .str toolId),
    ("manifestHash", .str manifestHash),
    ("callId", .str callId),
    ("inputHash", .str inputHash),
    ("acceptanceCriteria", params.get "acceptanceCriteria"),
    ("settlementTerms", params.get "settlementTerms"),
    ("payerAgentId", optToPyStr (pyStrOrNone (params.get "payerAgentId"))),
    ("payeeAgentId", optToPyStr (pyStrOrNone (params.get "payeeAgentId"))),
    ("createdAt", .str createdAt)])
  let agreementHash := sha256hex (canonicalJsonDumps agreementCore)
  let agreement := canonicalize (pyDictSet agreementCore "agreementHash" (.str agreementHash))
  return { agreement, agreementHash, inputHash,
           canonicalJson := canonicalJsonDumps agreement }

/-- Result of `NooterraClient.sign_evidence`. -/
structure EvidenceResult where
  evidence : PyVal
  evidenceHash : String
  outputHash : String
  canonicalJson : String

/-- `NooterraClient.sign_evidence` (client.py lines 1723-1755); identifying
fields fall back to the supplied agreement artifact; the `createdAt`
normalization is hoisted out of the core dict literal (pure, same order of
field values). -/
def signEvidence (sha256hex : String → String)
    (normIso : PyVal → Bool → String → Except String String) (params : PyVal) :
    Except String EvidenceResult := do
  if !params.isDict then throw "params must be an object"
  let agreement := if (params.get "agreement").isDict then params.get "agreement" else .dict []
  let agreementHash ← assertSha256Hex (params.getD "agreementHash" (agreement.get "agreementHash"))
    "agreementHash"
  let callId ← assertNonEmptyString (params.getD "callId" (agreement.get "callId")) "callId"
  let inputHash ← assertSha256Hex (params.getD "inputHash" (agreement.get "inputHash")) "inputHash"
  let startedAt ← normIso (params.get "startedAt") true "startedAt"
  let completedAt ← normIso (params.getD "completedAt" (.str startedAt)) true "completedAt"
  let outputCanonical := canonicalJsonDumps (params.getD "output" (.dict []))
  let outputHash := sha256hex outputCanonical
  let createdAt ← normIso (params.getD "createdAt" (.str completedAt)) true "createdAt"
  let evidenceCore := canonicalize (.dict [
    ("schemaVersion", .str "ToolCallEvidence.v1"),
    ("agreementHash", .str agreementHash),
    ("callId", .str callId),
    ("inputHash", .str inputHash),
    ("outputHash", .str outputHash),
    ("outputRef", optToPyStr (pyStrOrNone (params.get "outputRef"))),
    ("metrics", params.get "metrics"),
    ("startedAt", .str startedAt),
    ("completedAt", .str completedAt),
    ("createdAt", .str createdAt)])
  let evidenceHash := sha256hex (canonicalJsonDumps evidenceCore)
  let evidence := canonicalize (pyDictSet evidenceCore "evidenceHash" (.str evidenceHash))
  return { evidence, evidenceHash, outputHash,
           canonicalJson := canonicalJsonDumps evidence }

/-- The validation prefix of `NooterraClient.create_hold` (client.py lines
1757-1788): everything before the `self.ops_lock_tool_call_hold(...)`
network call, returning the request body that call would receive. -/
def holdChecks (params : PyVal) : Except String PyVal := do
  if !params.isDict then throw "params must be an object"
  let agreement := if (params.get "agreement").isDict then params.get "agreement" else .dict []
  let agreementHash ← assertSha256Hex (params.getD "agreementHash" (agreement.get "agreementHash"))
    "agreementHash"
  let receiptHash ← assertSha256Hex (params.get "receiptHash") "receiptHash"
  let payerAgentId ← assertNonEmptyString (params.get "payerAgentId") "payerAgentId"
  let payeeAgentId ← assertNonEmptyString (params.get "payeeAgentId") "payeeAgentId"
  if payerAgentId = payeeAgentId then throw "payerAgentId and payeeAgentId must differ"
  let amountCents := params.get "amountCents"
  if !(match pyIntClassValue amountCents with
       | some n => decide (n > 0)
       | Option.none => false) then
    throw "amountCents must be a positive safe integer"
  let holdbackBps ← pyInt (params.getD "holdbackBps" (.int 0))
  if holdbackBps < 0 || holdbackBps > 10000 then
    throw "holdbackBps must be an integer within 0..10000"
  let challengeWindowMs ← pyInt (params.getD "challengeWindowMs" (.int 0))
  if challengeWindowMs < 0 then
    throw "challengeWindowMs must be a non-negative safe integer"
  return .dict [
    ("agreementHash", .str agreementHash),
    ("receiptHash", .str receiptHash),
    ("payerAgentId", .str payerAgentId),
    ("payeeAgentId", .str payeeAgentId),
    ("amountCents", amountCents),
    ("currency", .str ((pyStrOrNone (params.get "currency")).getD "USD")),
    ("holdbackBps", .int holdbackBps),
    ("challengeWindowMs", .int challengeWindowMs)]

/-- `NooterraClient.create_hold`: validate, then hand the body to the network
call `ops_lock_tool_call_hold` (kept abstract: it is the first network
activity of the method). -/
def createHold {ρ : Type} (params : PyVal) (opsLockToolCallHold : PyVal → ρ) :
    Except String ρ :=
  (holdChecks params).map opsLockToolCallHold

theorem PyVal.isNone_iff (v : PyVal) : v.isNone = true ↔ v = PyVal.none := by
  cases v <;> simp [PyVal.isNone]

theorem canonicalize_eq_none_iff (v : PyVal) :
    canonicalize v = PyVal.none ↔ v = PyVal.none := by
  cases v <;> simp [canonicalize]

/-- The per-entry transformation of the dict loop of `_canonicalize`. -/
def canonPair (e : String × PyVal) : String × PyVal := (e.1, canonicalize e.2)

/-- No entry is ever dropped: the keep condition
`normalized is not None or value[key] is None` is a tautology because
`_canonicalize` maps only `None` to `None`. -/
theorem canonEntries_eq_map (es : List (String × PyVal)) :
    canonEntries es = es.map canonPair := by
  induction es with
  | nil => simp [canonEntries]
  | cons e rest ih =>
      obtain ⟨k, v⟩ := e
      rw [canonEntries]
      have hcond : (!(canonicalize v).isNone || v.isNone) = true := by
        by_cases h : canonicalize v = PyVal.none
        · have hv : v = PyVal.none := (canonicalize_eq_none_iff v).mp h
          simp [hv, PyVal.isNone]
        · have : (canonicalize v).isNone = false := by
            cases hc : canonicalize v <;> simp_all [PyVal.isNone]
          simp [this]
      simp [hcond, ih, canonPair]

theorem canonList_eq_map (xs : List PyVal) : canonList xs = xs.map canonicalize := by
  induction xs with
  | nil => rw [canonList]; rfl
  | cons x rest ih => rw [canonList, ih]; rfl

theorem canonicalize_dict (es : List (String × PyVal)) :
    canonicalize (.dict es) = .dict ((sortByKey es).map canonPair) := by
  rw [canonicalize, canonEntries_eq_map]

theorem canonicalize_list (xs : List PyVal) :
    canonicalize (.list xs) = .list (xs.map canonicalize) := by
  rw [canonicalize, canonList_eq_map]

theorem strLeb_cons_iff {a b : Char} {as bs : List Char} :
    strLeb (a :: as) (b :: bs) = true ↔
      a.toNat < b.toNat ∨ (a.toNat = b.toNat ∧ strLeb as bs = true) := by
  rw [strLeb]
  split_ifs with h1 h2
  · simp [h1]
  · simp; omega
  · have heq : a.toNat = b.toNat := by omega
    simp [heq, h1]

theorem strLeb_total : ∀ a b : List Char, strLeb a b = true ∨ strLeb b a = true
  | [], _ => Or.inl rfl
  | _ :: _, [] => Or.inr rfl
  | a :: as, b :: bs => by
      rw [strLeb_cons_iff, strLeb_cons_iff]
      rcases Nat.lt_trichotomy a.toNat b.toNat with h | h | h
      · exact Or.inl (Or.inl h)
      · rcases strLeb_total as bs with ht | ht
        · exact Or.inl (Or.inr ⟨h, ht⟩)
        · exact Or.inr (Or.inr ⟨h.symm, ht⟩)
      · exact Or.inr (Or.inl h)

theorem strLeb_trans : ∀ a b c : List Char,
    strLeb a b = true → strLeb b c = true → strLeb a c = true
  | [], _, _, _, _ => rfl
  | _ :: _, [], _, hab, _ => by simp [strLeb] at hab
  | _ :: _, _ :: _, [], _, hbc => by simp [strLeb] at hbc
  | a :: as, b :: bs, c :: cs, hab, hbc => by
      rw [strLeb_cons_iff] at hab hbc ⊢
      rcases hab with h | ⟨heq₁, ht₁⟩
      · rcases hbc with h' | ⟨heq₂, _⟩
        · exact Or.inl (h.trans h')
        · exact Or.inl (heq₂ ▸ h)
      · rcases hbc with h' | ⟨heq₂, ht₂⟩
        · exact Or.inl (heq₁ ▸ h')
        · exact Or.inr ⟨heq₁.trans heq₂, strLeb_trans as bs cs ht₁ ht₂⟩

theorem strLeb_antisymm : ∀ a b : List Char,
    strLeb a b = true → strLeb b a = true → a = b
  | [], [], _, _ => rfl
  | [], _ :: _, _, hba => by simp [strLeb] at hba
  | _ :: _, [], hab, _ => by simp [strLeb] at hab
  | a :: as, b :: bs, hab, hba => by
      rw [strLeb_cons_iff] at hab hba
      have heq : a.toNat = b.toNat := by omega
      have hchar : a = b := Char.eq_of_val_eq (UInt32.ext heq)
      have ht₁ : strLeb as bs = true := by
        rcases hab with h | ⟨_, ht⟩
        · omega
        · exact ht
      have ht₂ : strLeb bs as = true := by
        rcases hba with h | ⟨_, ht⟩
        · omega
        · exact ht
      rw [hchar, strLeb_antisymm as bs ht₁ ht₂]

instance : IsTotal (String × PyVal) keyLe :=
  ⟨fun a b => strLeb_total a.1.data b.1.data⟩

instance : IsTrans (String × PyVal) keyLe :=
  ⟨fun a b c => strLeb_trans a.1.data b.1.data c.1.data⟩

theorem keyLe_antisymm_fst {a b : String × PyVal} (hab : keyLe a b) (hba : keyLe b a) :
    a.1 = b.1 := by
  have hdata := strLeb_antisymm a.1.data b.1.data hab hba
  cases ha : a.1; cases hb : b.1
  simp_all

/-- Two key-sorted association lists that are permutations of each other and
have duplicate-free keys are equal. -/
theorem sorted_keyed_perm_eq : ∀ {l₁ l₂ : List (String × PyVal)}, l₁.Perm l₂ →
    l₁.Sorted keyLe → l₂.Sorted keyLe → (l₁.map Prod.fst).Nodup → l₁ = l₂
  | [], l₂, hp, _, _, _ => (hp.symm.eq_nil).symm
  | e :: t₁, [], hp, _, _, _ => by simpa using hp.length_eq
  | e₁ :: t₁, e₂ :: t₂, hp, hs₁, hs₂, hnd => by
      have hhead : e₁ = e₂ := by
        have he₁ : e₁ ∈ e₂ :: t₂ := hp.subset (List.mem_cons_self e₁ t₁)
        have he₂ : e₂ ∈ e₁ :: t₁ := hp.symm.subset (List.mem_cons_self e₂ t₂)
        rcases List.mem_cons.mp he₁ with h | h
        · exact h
        · rcases List.mem_cons.mp he₂ with h' | h'
          · exact h'.symm
          · exfalso
            have hle₁ : keyLe e₁ e₂ := List.rel_of_sorted_cons hs₁ e₂ h'
            have hle₂ : keyLe e₂ e₁ := List.rel_of_sorted_cons hs₂ e₁ h
            have hkey : e₁.1 = e₂.1 := keyLe_antisymm_fst hle₁ hle₂
            rw [List.map_cons, List.nodup_cons] at hnd
            exact hnd.1 (hkey ▸ List.mem_map_of_mem Prod.fst h')
      subst hhead
      rw [List.map_cons, List.nodup_cons] at hnd
      rw [sorted_keyed_perm_eq (hp.cons_inv) hs₁.of_cons hs₂.of_cons hnd.2]

mutual

/-- "Equal except for key-insertion order": same structure and same leaf
values, with every dict allowed to list its (duplicate-free, per genuine
Python dicts) entries in any order.  `ms` is the intermediate list holding
the right-hand values in the left-hand order, before reordering. -/
inductive EqUpToKeyOrder : PyVal → PyVal → Prop where
  | none : EqUpToKeyOrder .none .none
  | bool (b : Bool) : EqUpToKeyOrder (.bool b) (.bool b)
  | int (n : Int) : EqUpToKeyOrder (.int n) (.int n)
  | str (s : String) : EqUpToKeyOrder (.str s) (.str s)
  | list (xs ys : List PyVal) : EqListUpToKeyOrder xs ys →
      EqUpToKeyOrder (.list xs) (.list ys)
  | dict (es ms fs : List (String × PyVal)) : (es.map Prod.fst).Nodup →
      EqEntriesUpToKeyOrder es ms → ms.Perm fs →
      EqUpToKeyOrder (.dict es) (.dict fs)

inductive EqListUpToKeyOrder : List PyVal → List PyVal → Prop where
  | nil : EqListUpToKeyOrder [] []
  | cons {x y : PyVal} {xs ys : List PyVal} : EqUpToKeyOrder x y →
      EqListUpToKeyOrder xs ys → EqListUpToKeyOrder (x :: xs) (y :: ys)

inductive EqEntriesUpToKeyOrder :
    List (String × PyVal) → List (String × PyVal) → Prop where
  | nil : EqEntriesUpToKeyOrder [] []
  | cons (k : String) {v w : PyVal} {es fs : List (String × PyVal)} :
      EqUpToKeyOrder v w → EqEntriesUpToKeyOrder es fs →
      EqEntriesUpToKeyOrder ((k, v) :: es) ((k, w) :: fs)

end

theorem canonicalize_eq_of_eqUpToKeyOrder {v w : PyVal} (h : EqUpToKeyOrder v w) :
    canonicalize v = canonicalize w := by
  refine @EqUpToKeyOrder.rec
    (fun v w _ => canonicalize v = canonicalize w)
    (fun xs ys _ => xs.map canonicalize = ys.map canonicalize)
    (fun es fs _ => es.map canonPair = fs.map canonPair)
    rfl (fun _ => rfl) (fun _ => rfl) (fun _ => rfl)
    ?_ ?_ ?_ ?_ ?_ ?_ v w h
  · intro xs ys _ ih
    rw [canonicalize_list, canonicalize_list, ih]
  · intro es ms fs hnd _ hperm ihEntries
    rw [canonicalize_dict, canonicalize_dict]
    have hX : ((sortByKey es).map canonPair).Perm (fs.map canonPair) :=
      ((es.perm_insertionSort keyLe).map canonPair).trans
        (by rw [ihEntries]; exact hperm.map canonPair)
    have hXY : ((sortByKey es).map canonPair).Perm ((sortByKey fs).map canonPair) :=
      hX.trans ((fs.perm_insertionSort keyLe).map canonPair).symm
    have hkeyPair : ∀ a b : String × PyVal, keyLe (canonPair a) (canonPair b) ↔ keyLe a b := by
      intro a b; rfl
    have hsorted₁ : ((sortByKey es).map canonPair).Sorted keyLe := by
      rw [List.Sorted, List.pairwise_map]
      exact List.sorted_insertionSort keyLe es
    have hsorted₂ : ((sortByKey fs).map canonPair).Sorted keyLe := by
      rw [List.Sorted, List.pairwise_map]
      exact List.sorted_insertionSort keyLe fs
    have hkeys : (((sortByKey es).map canonPair).map Prod.fst).Nodup := by
      have hmapfst : ((sortByKey es).map canonPair).map Prod.fst =
          (sortByKey es).map Prod.fst := by
        rw [List.map_map]; rfl
      rw [hmapfst]
      exact (((es.perm_insertionSort keyLe)).map Prod.fst).nodup_iff.mpr hnd
    rw [sorted_keyed_perm_eq hXY hsorted₁ hsorted₂ hkeys]
  · rfl
  · intro x y xs ys _ _ ihv ihl
    simp [ihv, ihl]
  · rfl
  · intro k v w es fs _ _ ihv ihe
    simp [canonPair, ihv, ihe]

theorem sizeOf_item_lt_of_mem {xs : List PyVal} {x : PyVal} (h : x ∈ xs) :
    sizeOf x < sizeOf (PyVal.list xs) := by
  have h1 := List.sizeOf_lt_of_mem h
  simp only [PyVal.list.sizeOf_spec]
  omega

theorem sizeOf_val_lt_of_mem {es : List (String × PyVal)} {e : String × PyVal} (h : e ∈ es) :
    sizeOf e.2 < sizeOf (PyVal.dict es) := by
  have h1 := List.sizeOf_lt_of_mem h
  have h2 : sizeOf e.2 < sizeOf e := by
    obtain ⟨k, v⟩ := e
    simp
  simp only [PyVal.dict.sizeOf_spec]
  omega

theorem canonicalize_idem_aux : ∀ (n : Nat) (v : PyVal), sizeOf v ≤ n →
    canonicalize (canonicalize v) = canonicalize v := by
  intro n
  induction n with
  | zero => intro v hv; cases v <;> simp at hv
  | succ n ih =>
      intro v hv
      match v with
      | .none => simp [canonicalize]
      | .bool b => simp [canonicalize]
      | .int m => simp [canonicalize]
      | .str s => simp [canonicalize]
      | .list xs =>
          rw [canonicalize_list, canonicalize_list, List.map_map]
          refine congrArg PyVal.list (List.map_congr_left ?_)
          intro x hx
          have hs := sizeOf_item_lt_of_mem hx
          simp only [PyVal.list.sizeOf_spec] at hv hs
          exact ih x (by omega)
      | .dict es =>
          rw [canonicalize_dict, canonicalize_dict]
          have hsorted : ((sortByKey es).map canonPair).Sorted keyLe := by
            rw [List.Sorted, List.pairwise_map]
            exact List.sorted_insertionSort keyLe es
          rw [show sortByKey ((sortByKey es).map canonPair) = (sortByKey es).map canonPair from
            hsorted.insertionSort_eq]
          rw [List.map_map]
          refine congrArg PyVal.dict (List.map_congr_left ?_)
          intro e he
          have he' : e ∈ es := (List.mem_insertionSort keyLe).mp he
          have hs := sizeOf_val_lt_of_mem he'
          simp only [PyVal.dict.sizeOf_spec] at hv hs
          simp only [Function.comp, canonPair]
          rw [ih e.2 (by omega)]

theorem canonicalize_idem (v : PyVal) :
    canonicalize (canonicalize v) = canonicalize v :=
  canonicalize_idem_aux (sizeOf v) v le_rfl

/-- **C1**: Canonical encoding is deterministic and idempotent: any two
mappings that are equal except for key-insertion order (recursively) produce
identical canonical JSON strings, hence identical digests under any hash
function, and canonicalizing an already-canonical value returns it
unchanged. -/
theorem canonical_encoding_deterministic_and_idempotent
    (v w u : PyVal) (sha256hex : String → String) (h : EqUpToKeyOrder v w) :
    canonicalJsonDumps v = canonicalJsonDumps w ∧
    sha256hex (canonicalJsonDumps v) = sha256hex (canonicalJsonDumps w) ∧
    canonicalize (canonicalize u) = canonicalize u := by
  have hc : canonicalJsonDumps v = canonicalJsonDumps w := by
    rw [canonicalJsonDumps, canonicalJsonDumps, canonicalize_eq_of_eqUpToKeyOrder h]
  exact ⟨hc, congrArg sha256hex hc, canonicalize_idem u⟩

/-- Witness for C1 at `{"b": 2, "a": 1}` vs `{"a": 1, "b": 2}`. -/
theorem canonical_encoding_deterministic_and_idempotent_witness :
    canonicalJsonDumps (.dict [("b", .int 2), ("a", .int 1)]) =
      canonicalJsonDumps (.dict [("a", .int 1), ("b", .int 2)]) ∧
    (fun s => s) (canonicalJsonDumps (.dict [("b", .int 2), ("a", .int 1)])) =
      (fun s => s) (canonicalJsonDumps (.dict [("a", .int 1), ("b", .int 2)])) ∧
    canonicalize (canonicalize (.list [.none, .str "x"])) =
      canonicalize (.list [.none, .str "x"]) := by
  have h : EqUpToKeyOrder (.dict [("b", .int 2), ("a", .int 1)])
      (.dict [("a", .int 1), ("b", .int 2)]) := by
    refine EqUpToKeyOrder.dict _ [("b", .int 2), ("a", .int 1)] _ (by simp) ?_ ?_
    · exact EqEntriesUpToKeyOrder.cons "b" (EqUpToKeyOrder.int 2)
        (EqEntriesUpToKeyOrder.cons "a" (EqUpToKeyOrder.int 1) EqEntriesUpToKeyOrder.nil)
    · exact List.Perm.swap (("a", PyVal.int 1) : String × PyVal) ("b", PyVal.int 2) []
  exact canonical_encoding_deterministic_and_idempotent _ _ _ (fun s => s) h

/-- **C10**: canonicalization never drops a mapping key: the canonicalized
dict has exactly the input's keys (as a multiset), `None` values are kept as
`None`, and the reason holds: `_canonicalize` returns `None` only on `None`
itself. -/
theorem canonicalize_dict_keeps_all_keys (es : List (String × PyVal)) :
    (∀ v : PyVal, canonicalize v = PyVal.none ↔ v = PyVal.none) ∧
    ∃ es' : List (String × PyVal),
      canonicalize (.dict es) = .dict es' ∧
      (es'.map Prod.fst).Perm (es.map Prod.fst) ∧
      ∀ kv ∈ es, kv.2 = PyVal.none → (kv.1, PyVal.none) ∈ es' := by
  refine ⟨canonicalize_eq_none_iff, List.map canonPair (sortByKey es),
    canonicalize_dict es, ?_, ?_⟩
  · have hfst : ((sortByKey es).map canonPair).map Prod.fst = (sortByKey es).map Prod.fst := by
      rw [List.map_map]; rfl
    rw [hfst]
    exact (es.perm_insertionSort keyLe).map Prod.fst
  · intro kv hkv hnone
    have h1 : kv ∈ sortByKey es := (List.mem_insertionSort keyLe).mpr hkv
    have h2 : canonPair kv = (kv.1, PyVal.none) := by
      simp [canonPair, hnone, canonicalize]
    exact h2 ▸ List.mem_map_of_mem canonPair h1

/-- Witness for C10 at `{"k": None, "a": 1}`. -/
theorem canonicalize_dict_keeps_all_keys_witness :
    canonicalize (.dict [("k", PyVal.none), ("a", .int 1)]) =
      .dict [("a", .int 1), ("k", PyVal.none)] ∧
    ("k", PyVal.none) ∈ [("a", PyVal.int 1), ("k", PyVal.none)] := by
  obtain ⟨_, es', heq, _, hkeep⟩ :=
    canonicalize_dict_keeps_all_keys [("k", PyVal.none), ("a", .int 1)]
  have hcomp : canonicalize (.dict [("k", PyVal.none), ("a", .int 1)]) =
      .dict [("a", .int 1), ("k", PyVal.none)] := by
    simp [canonicalize, canonEntries, canonList, sortByKey, List.insertionSort,
      List.orderedInsert, keyLe, strLeb, String.data, PyVal.isNone]
  refine ⟨hcomp, ?_⟩
  have hes : es' = [("a", PyVal.int 1), ("k", PyVal.none)] :=
    PyVal.dict.inj (heq.symm.trans hcomp)
  exact hes ▸ hkeep ("k", PyVal.none) (by simp) rfl

/-- **C5 counterexample**: a raised `NooterraApiError` (status 404, code
`NOT_FOUND`) is an exception that is not a Parity Error, yet
`_coerce_parity_error` keeps its status and code: the result has status 404,
not 0, and code `NOT_FOUND`, not `TRANSPORT_ERROR`, and no `causeName`
details. -/
theorem coerce_api_error_keeps_status_and_code :
    (coerceParityError (.api 404 (some "NOT_FOUND") "not found" .none Option.none)
        "http" "op.test" "req_1" Option.none 1).status = 404 ∧
    (coerceParityError (.api 404 (some "NOT_FOUND") "not found" .none Option.none)
        "http" "op.test" "req_1" Option.none 1).code = some "NOT_FOUND" ∧
    (coerceParityError (.api 404 (some "NOT_FOUND") "not found" .none Option.none)
        "http" "op.test" "req_1" Option.none 1).status ≠ 0 ∧
    (coerceParityError (.api 404 (some "NOT_FOUND") "not found" .none Option.none)
        "http" "op.test" "req_1" Option.none 1).code ≠ some "PARITY_TRANSPORT_ERROR" :=
  ⟨rfl, rfl, by decide, by decide⟩

/-- **C5 amended**: only exceptions that are neither Parity Errors nor API
errors are coerced to a Parity Error with status 0 and code
`TRANSPORT_ERROR` carrying the exception's type name in `details.causeName`;
a raised API error is coerced keeping its own status and, when non-blank, its
own code, marked non-retryable. -/
theorem coerce_parity_error_classification
    (typeName message transport operationId requestId : String)
    (idemKey : Option String) (attempt status : Int) (code : Option String)
    (details : PyVal) (reqId : Option String) (c : String) :
    ((coerceParityError (.other typeName message) transport operationId requestId idemKey
        attempt).status = 0 ∧
     (coerceParityError (.other typeName message) transport operationId requestId idemKey
        attempt).code = some "PARITY_TRANSPORT_ERROR" ∧
     (coerceParityError (.other typeName message) transport operationId requestId idemKey
        attempt).details = .dict [("causeName", .str typeName)] ∧
     (coerceParityError (.other typeName message) transport operationId requestId idemKey
        attempt).retryable = false) ∧
    ((coerceParityError (.api status code message details reqId) transport operationId
        requestId idemKey attempt).status = status ∧
     (coerceParityError (.api status code message details reqId) transport operationId
        requestId idemKey attempt).retryable = false ∧
     (code = some c → pyStrip c ≠ "" →
       (coerceParityError (.api status code message details reqId) transport operationId
         requestId idemKey attempt).code = some (pyStrip c))) := by
  refine ⟨⟨rfl, rfl, rfl, rfl⟩, rfl, rfl, ?_⟩
  intro hcode hblank
  subst hcode
  simp only [coerceParityError, createParityError, pyOrStr, optStrOrNone]
  by_cases hce : c = ""
  · subst hce
    exact absurd rfl hblank
  · simp [hce, hblank]

/-- Witness for the amended C5 at a concrete `ConnectionError` and a concrete
API error. -/
theorem coerce_parity_error_classification_witness :
    (coerceParityError (.other "ConnectionError" "boom") "http" "op" "req_1" Option.none
      2).status = 0 ∧
    (coerceParityError (.api 404 (some "NOT_FOUND") "boom" .none Option.none) "http" "op"
      "req_1" Option.none 2).code = some "NOT_FOUND" := by
  have h := coerce_parity_error_classification "ConnectionError" "boom" "http" "op" "req_1"
    Option.none 2 404 (some "NOT_FOUND") .none Option.none "NOT_FOUND"
  exact ⟨h.1.1, (h.2.2.2 rfl (by decide)).trans (by rfl)⟩

/-- **C6 counterexample**: the block `: ping` / `event: foo` / blank line
contains a field line (`event:`) alongside a comment line and has zero data
lines.  The claim says such a block is emitted with empty data; the parser
suppresses it (no event is produced, not even at end of stream). -/
theorem sse_field_line_beside_comment_suppressed :
    runSse (fun _ => Option.none) [": ping", "event: foo", ""] = [] := by rfl

/-- **C6 amended**: an event block with zero accumulated data lines is
suppressed iff the block contained any comment line or no field line at all;
it is emitted with empty data iff it contained at least one field line and no
comment line. -/
theorem sse_empty_data_emission_rule (jsonLoads : String → Option PyVal) (st : SseState)
    (hdata : st.dataLines = []) :
    ((emitSseEvent jsonLoads st).1 = Option.none ↔
      (st.sawCommentOnlyLine = true ∨ st.sawFieldLine = false)) ∧
    (st.sawFieldLine = true → st.sawCommentOnlyLine = false →
      (emitSseEvent jsonLoads st).1 =
        some { event := st.eventName, id := st.eventId, rawData := "", data := .none }) := by
  constructor
  · rw [emitSseEvent]
    simp [hdata]
    cases h1 : st.sawCommentOnlyLine <;> cases h2 : st.sawFieldLine <;> simp
  · intro hf hc
    rw [emitSseEvent]
    simp [hdata, hf, hc]

/-- Witness for the amended C6: after `event: foo` and `id: 7` with no data
lines, the flush emits one event with empty data. -/
theorem sse_empty_data_emission_rule_witness :
    (emitSseEvent (fun _ => Option.none)
      { eventName := "foo", eventId := some "7", dataLines := [],
        sawCommentOnlyLine := false, sawFieldLine := true }).1 =
      some { event := "foo", id := some "7", rawData := "", data := .none } := by
  have h := sse_empty_data_emission_rule (fun _ => Option.none)
    { eventName := "foo", eventId := some "7", dataLines := [],
      sawCommentOnlyLine := false, sawFieldLine := true } rfl
  exact h.2 rfl rfl

/-- **C8 counterexample**: `create_agreement` with a `manifestHash` of 64
UPPER-case hex characters does not fail: `_assert_sha256_hex` lower-cases its
input before checking, so the builder succeeds (with any hash/clock
primitive). -/
theorem createAgreement_accepts_uppercase_manifestHash :
    (createAgreement (fun _ => "") (fun _ _ _ => .ok "2024-01-01T00:00:00.000Z")
      (.dict [("toolId", .str "tool"), ("callId", .str "call"),
              ("manifestHash", .str (String.mk (List.replicate 64 'A')))])).isOk = true := by
  rfl

/-- **C8 amended**: a hash argument is accepted iff it is a string whose
stripped, lower-cased form is exactly 64 hex characters; the normalized
lower-case form is what the builder stores, and `create_agreement` fails with
a validation error whenever its `manifestHash` argument fails this test. -/
theorem sha256_hex_validation_normalizes (value : PyVal) (name : String)
    (sha256hex : String → String) (normIso : PyVal → Bool → String → Except String String)
    (params : PyVal) :
    ((∃ h, assertSha256Hex value name = .ok h) ↔
      (∃ s, value = .str s ∧ (pyLower (pyStrip s)).length = 64 ∧
        (pyLower (pyStrip s)).data.all isLowerHexChar = true)) ∧
    (∀ s h, value = .str s → assertSha256Hex value name = .ok h →
      h = pyLower (pyStrip s)) ∧
    ((∃ e, assertSha256Hex (params.get "manifestHash") "params.manifestHash" = .error e) →
      ∃ e', createAgreement sha256hex normIso params = .error e') := by
  refine ⟨?_, ?_, ?_⟩
  · constructor
    · rintro ⟨h, hh⟩
      match value, hh with
      | .str s, hh =>
          refine ⟨s, rfl, ?_⟩
          by_cases hc : (pyLower (pyStrip s)).length = 64 ∧
              (pyLower (pyStrip s)).data.all isLowerHexChar = true
          · exact hc
          · rw [assertSha256Hex] at hh
            simp only [Bool.and_eq_true, decide_eq_true_eq] at hh
            split at hh
            · rename_i hcond
              exact absurd ⟨hcond.1, hcond.2⟩ hc
            · exact absurd hh (by simp)
      | .none, hh => simp [assertSha256Hex] at hh
      | .bool b, hh => simp [assertSha256Hex] at hh
      | .int n, hh => simp [assertSha256Hex] at hh
      | .list xs, hh => simp [assertSha256Hex] at hh
      | .dict es, hh => simp [assertSha256Hex] at hh
    · rintro ⟨s, rfl, hlen, hhex⟩
      exact ⟨pyLower (pyStrip s), by simp [assertSha256Hex, hlen, hhex]⟩
  · rintro s h rfl hok
    rw [assertSha256Hex] at hok
    split at hok
    · exact (Except.ok.inj hok).symm
    · exact absurd hok (by simp)
  · rintro ⟨e, he⟩
    cases hd : params.isDict
    · exact ⟨"params must be an object", by simp [createAgreement, hd, bind, Except.bind,
        throw, throwThe, MonadExceptOf.throw, pure, Except.pure]⟩
    · cases h1 : assertNonEmptyString (params.get "toolId") "params.toolId" with
      | error e1 =>
          exact ⟨e1, by simp [createAgreement, hd, h1, bind, Except.bind, throw, throwThe,
            MonadExceptOf.throw, pure, Except.pure]⟩
      | ok toolId =>
          cases h2 : assertNonEmptyString (params.get "callId") "params.callId" with
          | error e2 =>
              exact ⟨e2, by simp [createAgreement, hd, h1, h2, bind, Except.bind, throw,
                throwThe, MonadExceptOf.throw, pure, Except.pure]⟩
          | ok callId =>
              exact ⟨e, by simp [createAgreement, hd, h1, h2, he, bind, Except.bind, throw,
                throwThe, MonadExceptOf.throw, pure, Except.pure]⟩

/-- Witness for the amended C8: mixed-case input is normalized, pure
lower-case input is accepted unchanged, and a 63-character hash makes
`create_agreement` fail. -/
theorem sha256_hex_validation_normalizes_witness :
    assertSha256Hex (.str (String.mk (List.replicate 64 'A'))) "x" =
      .ok (String.mk (List.replicate 64 'a')) ∧
    (∃ e', createAgreement (fun _ => "") (fun _ _ _ => .ok "t")
      (.dict [("toolId", .str "tool"), ("callId", .str "call"),
              ("manifestHash", .str (String.mk (List.replicate 63 'a')))]) = .error e') := by
  constructor
  · have h := (sha256_hex_validation_normalizes (.str (String.mk (List.replicate 64 'A')))
      "x" (fun _ => "") (fun _ _ _ => .ok "t") PyVal.none).2.1
    have hok : assertSha256Hex (.str (String.mk (List.replicate 64 'A'))) "x" =
        .ok (pyLower (pyStrip (String.mk (List.replicate 64 'A')))) := by rfl
    exact hok.trans (by rfl)
  · exact (sha256_hex_validation_normalizes PyVal.none "x" (fun _ => "")
      (fun _ _ _ => Except.ok "t")
      (.dict [("toolId", .str "tool"), ("callId", .str "call"),
              ("manifestHash", .str (String.mk (List.replicate 63 'a')))])).2.2
      ⟨"params.manifestHash must be sha256 hex", by rfl⟩

/-- The success of `_assert_non_empty_string` depends only on the value, not
on the diagnostic name. -/
theorem assertNonEmptyString_ok_irrel (v : PyVal) (n₁ n₂ : String) (s : String)
    (h : assertNonEmptyString v n₁ = .ok s) : assertNonEmptyString v n₂ = .ok s := by
  match v, h with
  | .str t, h =>
      rw [assertNonEmptyString] at h ⊢
      split at h
      · exact absurd h (by simp)
      · rw [if_neg (by assumption)]
        exact h
  | .none, h => simp [assertNonEmptyString] at h
  | .bool b, h => simp [assertNonEmptyString] at h
  | .int n, h => simp [assertNonEmptyString] at h
  | .list xs, h => simp [assertNonEmptyString] at h
  | .dict es, h => simp [assertNonEmptyString] at h

/-- **C7**: `create_hold` fails fast: whenever the parameters violate
`payerAgentId != payeeAgentId`, `amountCents` a positive integer,
`holdbackBps ∈ [0,10000]` or `challengeWindowMs ≥ 0`, a validation error is
raised before any network activity: the result is the same error for every
network function, which is therefore never invoked. -/
theorem createHold_fails_fast (params : PyVal)
    (hviol :
      params.get "payerAgentId" = params.get "payeeAgentId" ∨
      (¬ ∃ n, pyIntClassValue (params.get "amountCents") = some n ∧ 0 < n) ∨
      (¬ ∃ r, pyInt (params.getD "holdbackBps" (.int 0)) = .ok r ∧ 0 ≤ r ∧ r ≤ 10000) ∨
      (¬ ∃ r, pyInt (params.getD "challengeWindowMs" (.int 0)) = .ok r ∧ 0 ≤ r)) :
    ∃ msg, ∀ (ρ : Type) (net : PyVal → ρ), createHold params net = .error msg := by
  suffices h : ∃ msg, holdChecks params = .error msg by
    obtain ⟨msg, hmsg⟩ := h
    exact ⟨msg, fun ρ net => by simp [createHold, hmsg, Except.map]⟩
  rcases hres : holdChecks params with msg | body
  · exact ⟨msg, rfl⟩
  exfalso
  simp only [holdChecks, bind, Except.bind, throw, throwThe, MonadExceptOf.throw, pure,
    Except.pure] at hres
  by_cases hd : (!params.isDict) = true
  · rw [if_pos hd] at hres
    exact absurd hres (by simp)
  rw [if_neg hd] at hres
  cases hA : assertSha256Hex (params.getD "agreementHash"
      ((if (params.get "agreement").isDict = true then params.get "agreement"
        else PyVal.dict []).get "agreementHash")) "agreementHash" with
  | error eA => rw [hA] at hres; exact absurd hres (by simp)
  | ok agreementHash =>
  rw [hA] at hres
  dsimp only at hres
  cases hR : assertSha256Hex (params.get "receiptHash") "receiptHash" with
  | error eR => rw [hR] at hres; exact absurd hres (by simp)
  | ok receiptHash =>
  rw [hR] at hres
  dsimp only at hres
  cases hP : assertNonEmptyString (params.get "payerAgentId") "payerAgentId" with
  | error eP => rw [hP] at hres; exact absurd hres (by simp)
  | ok payer =>
  rw [hP] at hres
  dsimp only at hres
  cases hQ : assertNonEmptyString (params.get "payeeAgentId") "payeeAgentId" with
  | error eQ => rw [hQ] at hres; exact absurd hres (by simp)
  | ok payee =>
  rw [hQ] at hres
  dsimp only at hres
  by_cases hpq : payer = payee
  · rw [if_pos hpq] at hres; exact absurd hres (by simp)
  rw [if_neg hpq] at hres
  by_cases hamt : (!match pyIntClassValue (params.get "amountCents") with
      | some n => decide (n > 0)
      | Option.none => false) = true
  · rw [if_pos hamt] at hres; exact absurd hres (by simp)
  rw [if_neg hamt] at hres
  cases hH : pyInt (params.getD "holdbackBps" (.int 0)) with
  | error eH => rw [hH] at hres; exact absurd hres (by simp)
  | ok holdbackBps =>
  rw [hH] at hres
  dsimp only at hres
  by_cases hHr : (decide (holdbackBps < 0) || decide (holdbackBps > 10000)) = true
  · rw [if_pos hHr] at hres; exact absurd hres (by simp)
  rw [if_neg hHr] at hres
  cases hC : pyInt (params.getD "challengeWindowMs" (.int 0)) with
  | error eC => rw [hC] at hres; exact absurd hres (by simp)
  | ok challengeWindowMs =>
  rw [hC] at hres
  dsimp only at hres
  by_cases hCr : challengeWindowMs < 0
  · rw [if_pos hCr] at hres; exact absurd hres (by simp)
  -- every check passed: contradict the assumed violation
  rcases hviol with hv | hv | hv | hv
  · have heq : payer = payee := by
      rw [hv] at hP
      exact Except.ok.inj ((assertNonEmptyString_ok_irrel _ _ "payeeAgentId" _ hP).symm.trans hQ)
    exact hpq heq
  · refine hv ?_
    have hamt' : (match pyIntClassValue (params.get "amountCents") with
        | some n => decide (n > 0)
        | Option.none => false) = true := by
      revert hamt
      cases (match pyIntClassValue (params.get "amountCents") with
        | some n => decide (n > 0)
        | Option.none => false) <;> simp
    cases hI : pyIntClassValue (params.get "amountCents") with
    | none => rw [hI] at hamt'; simp at hamt'
    | some n =>
        rw [hI] at hamt'
        simp only [decide_eq_true_eq] at hamt'
        exact ⟨n, rfl, hamt'⟩
  · simp only [Bool.or_eq_true, decide_eq_true_eq, not_or] at hHr
    exact hv ⟨holdbackBps, hH, by omega, by omega⟩
  · exact hv ⟨challengeWindowMs, hC, by omega⟩

/-- Witness for C7: equal payer and payee ids make `create_hold` error before
the network call. -/
theorem createHold_fails_fast_witness :
    ∃ msg, ∀ (ρ : Type) (net : PyVal → ρ),
      createHold (.dict [("agreementHash", .str (String.mk (List.replicate 64 'a'))),
        ("receiptHash", .str (String.mk (List.replicate 64 'b'))),
        ("payerAgentId", .str "agent-1"), ("payeeAgentId", .str "agent-1"),
        ("amountCents", .int 100)]) net = .error msg :=
  createHold_fails_fast _ (Or.inl rfl)

/-- The `requiredFields` loop reports the first missing field when any field
is missing. -/
theorem checkRequiredFields_error (payload : PyVal) (transport : String)
    (opId idemKey : Option String) :
    ∀ fields : List String,
      (∃ q ∈ fields, isMissingRequired (getValueAtPath payload q) = true) →
      ∃ q, q ∈ fields ∧ isMissingRequired (getValueAtPath payload q) = true ∧
        checkRequiredFields payload transport opId idemKey fields =
          .error (parityValidationError "PARITY_REQUIRED_FIELD_MISSING"
            ("payload." ++ q ++ " is required") transport opId idemKey
            (.dict [("field", .str q)]))
  | [], h => absurd h (by simp)
  | f :: rest, h => by
      by_cases hf : isMissingRequired (getValueAtPath payload f) = true
      · exact ⟨f, List.mem_cons_self f rest, hf,
          by rw [checkRequiredFields, if_pos hf]⟩
      · obtain ⟨q, hq, hmq⟩ := h
        have hqrest : q ∈ rest := by
          rcases List.mem_cons.mp hq with rfl | h'
          · exact absurd hmq hf
          · exact h'
        obtain ⟨q', hq', hmq', heq⟩ :=
          checkRequiredFields_error payload transport opId idemKey rest ⟨q, hqrest, hmq⟩
        exact ⟨q', List.mem_cons_of_mem f hq', hmq',
          by rw [checkRequiredFields, if_neg hf]; exact heq⟩

theorem validateParityPayload_required_error (payload : PyVal) (rop : ResolvedOp)
    (transport : String) (idemKey prevHash : Option String) (e : ParityError)
    (hdict : payload.isDict = true)
    (h : checkRequiredFields payload transport (some rop.operationId) idemKey
      rop.requiredFields = .error e) :
    validateParityPayload payload rop transport idemKey prevHash = .error e := by
  simp [validateParityPayload, hdict, h, bind, Except.bind, throw, throwThe,
    MonadExceptOf.throw, pure, Except.pure]

/-- **C3**: validation precedes dispatch: if a resolvable operation lists a
required dotted path that does not resolve to a non-null, non-blank value in
the (dict) payload, `invoke` fails with `REQUIRED_FIELD_MISSING` naming that
field — status 400, retryable false, attempts 1 — and the result is the same
for every transport, which is therefore never consulted. -/
theorem invoke_required_field_missing (cfg : AdapterConfig) (operation payload : PyVal)
    (requestId idemKey prevHash : Option String) (rop : ResolvedOp) (p : String)
    (hre : resolveParityOperation operation cfg.transport = .ok rop)
    (hdict : payload.isDict = true)
    (hmem : p ∈ rop.requiredFields)
    (hmiss : isMissingRequired (getValueAtPath payload p) = true)
    (huniq : ∀ q ∈ rop.requiredFields,
      isMissingRequired (getValueAtPath payload q) = true → q = p) :
    ∀ t : Int → AttemptResult,
      invoke cfg operation payload requestId idemKey prevHash t =
        .error (.parity (parityValidationError "PARITY_REQUIRED_FIELD_MISSING"
          ("payload." ++ p ++ " is required") cfg.transport (some rop.operationId)
          (optStrOrNone idemKey) (.dict [("field", .str p)]))) := by
  intro t
  obtain ⟨q, hq, hmq, heq⟩ := checkRequiredFields_error payload cfg.transport
    (some rop.operationId) (optStrOrNone idemKey) rop.requiredFields ⟨p, hmem, hmiss⟩
  have hqp : q = p := huniq q hq hmq
  subst hqp
  have hval := validateParityPayload_required_error payload rop cfg.transport
    (optStrOrNone idemKey) (optStrOrNone prevHash) _ hdict heq
  rw [invoke, hre]
  dsimp only
  rw [hval]

/-- A concrete http adapter configuration with the default retry policy
(`max_attempts=3`, default retry status codes, no retry codes, zero delay). -/
def testCfg : AdapterConfig :=
  { transport := "http", maxAttempts := 3, retryStatusCodes := defaultRetryStatusCodes,
    retryCodes := [], retryDelay := fun _ => 0, freshRequestId := "req_fixed" }

/-- A concrete wire operation requiring `payload.amountCents`. -/
def testOperation : PyVal :=
  .dict [("operationId", .str "op.pay"), ("method", .str "POST"), ("path", .str "/pay"),
         ("requiredFields", .list [.str "payload.amountCents"])]

def testResolvedOp : ResolvedOp :=
  { transport := "http", operationId := "op.pay", method := some "POST",
    path := some "/pay", toolName := Option.none,
    requiredFields := ["payload.amountCents"], sha256Fields := [],
    idempotencyRequired := true, expectedPrevChainHashRequired := false }

/-- Witness for C3: a payload missing `payload.amountCents` yields the
`REQUIRED_FIELD_MISSING` error for an arbitrary transport. -/
theorem invoke_required_field_missing_witness :
    invoke testCfg testOperation (.dict [("payload", .dict [])]) Option.none (some "idem-1")
      Option.none (fun _ => .notDict) =
      .error (.parity (parityValidationError "PARITY_REQUIRED_FIELD_MISSING"
        "payload.payload.amountCents is required" "http" (some "op.pay") (some "idem-1")
        (.dict [("field", .str "payload.amountCents")]))) := by
  have h := invoke_required_field_missing testCfg testOperation (.dict [("payload", .dict [])])
    Option.none (some "idem-1") Option.none testResolvedOp "payload.amountCents"
    (by rfl) (by rfl) (by simp [testResolvedOp]) (by rfl)
    (by intro q hq _; simpa [testResolvedOp] using hq)
  exact (h (fun _ => .notDict)).trans (by rfl)

/-- A transport failure response: status 503, no `ok` field. -/
def resp503 : RawResponse :=
  { okField := .none, status := .int 503, requestId := .none, code := .none,
    message := .none, details := .none, body := .none, headers := .none }

/-- A transport success response: `ok` true, status 200. -/
def resp200 : RawResponse :=
  { okField := .bool true, status := .int 200, requestId := .str "req-s", code := .none,
    message := .none, details := .none, body := .dict [], headers := .none }

/-- A terminal transport rejection: status 400. -/
def resp400 : RawResponse :=
  { okField := .none, status := .int 400, requestId := .none, code := .none,
    message := .none, details := .none, body := .none, headers := .none }

def okPayload : PyVal := .dict [("payload", .dict [("amountCents", .int 5)])]

/-- **C2**: retry policy of `invoke` with `max_attempts=3` and the default
retry sets: a transport failing twice with 503 then succeeding yields a
success with `attempts = 3`; a transport returning 400 on the first attempt
produces — without any further dispatch (only `u 1` is constrained) — a
parity error with `attempts = 1` and `retryable = false`. -/
theorem invoke_retry_policy (t u : Int → AttemptResult)
    (ht1 : t 1 = .resp resp503) (ht2 : t 2 = .resp resp503) (ht3 : t 3 = .resp resp200)
    (hu : u 1 = .resp resp400) :
    (∃ r, invoke testCfg testOperation okPayload Option.none (some "idem-1") Option.none t =
      .ok r ∧ r.attempts = 3 ∧ r.status = 200) ∧
    (∃ e, invoke testCfg testOperation okPayload Option.none (some "idem-1") Option.none u =
      .error (.parity e) ∧ e.attempts = 1 ∧ e.retryable = false ∧ e.status = 400) := by
  constructor
  · refine ⟨{ ok := true, status := 200, requestId := some "req-s", body := .dict [],
              headers := [], transport := "http", operationId := "op.pay",
              idempotencyKey := some "idem-1", attempts := 3 }, ?_, rfl, rfl⟩
    simp +decide [invoke, invokeLoop, attemptOnce, ht1, ht2, ht3, testCfg, testOperation,
      okPayload, pyStartsWith, String.data, resolveParityOperation, validateParityPayload,
      checkRequiredFields, checkSha256Fields, getValueAtPath, walkPath, pySplit, pySplitChar,
      isMissingRequired, pyStrOrNone, optStrOrNone, pyStrip, coerceParityError,
      createParityError, isRetryable, defaultRetryStatusCodes, normalizeHeadersRecord,
      recordGet, pyOrStr, pyIntClassValue, pyTruthy, resp503, resp200, parityValidationError,
      bind, Except.bind, throw, throwThe, MonadExceptOf.throw, pure, Except.pure, PyVal.get,
      PyVal.getD, pyLookup, PyVal.isDict, PyVal.isNone, pyStr, pyUpper]
  · refine ⟨{ status := 400, code := some "PARITY_REQUEST_REJECTED",
              message := "request failed (400)", details := .none,
              requestId := some "req_fixed", retryable := false, attempts := 1,
              idempotencyKey := some "idem-1", transport := "http",
              operationId := some "op.pay" }, ?_, rfl, rfl, rfl⟩
    simp +decide [invoke, invokeLoop, attemptOnce, hu, testCfg, testOperation,
      okPayload, pyStartsWith, String.data, resolveParityOperation, validateParityPayload,
      checkRequiredFields, checkSha256Fields, getValueAtPath, walkPath, pySplit, pySplitChar,
      isMissingRequired, pyStrOrNone, optStrOrNone, pyStrip, coerceParityError,
      createParityError, isRetryable, defaultRetryStatusCodes, normalizeHeadersRecord,
      recordGet, pyOrStr, pyIntClassValue, pyTruthy, resp400, parityValidationError,
      bind, Except.bind, throw, throwThe, MonadExceptOf.throw, pure, Except.pure, PyVal.get,
      PyVal.getD, pyLookup, PyVal.isDict, PyVal.isNone, pyStr, pyUpper]

/-- Witness for C2 at a concrete transport pair. -/
theorem invoke_retry_policy_witness :
    (∃ r, invoke testCfg testOperation okPayload Option.none (some "idem-1") Option.none
      (fun attempt => if attempt = 3 then .resp resp200 else .resp resp503) =
      .ok r ∧ r.attempts = 3 ∧ r.status = 200) ∧
    (∃ e, invoke testCfg testOperation okPayload Option.none (some "idem-1") Option.none
      (fun _ => .resp resp400) =
      .error (.parity e) ∧ e.attempts = 1 ∧ e.retryable = false ∧ e.status = 400) :=
  invoke_retry_policy (fun attempt => if attempt = 3 then .resp resp200 else .resp resp503)
    (fun _ => .resp resp400) (by rfl) (by rfl) (by rfl) (by rfl)

/-- The dispatch loop never falls through to the post-loop fallback: on its
last iteration `attempt >= self.max_attempts` forces a raise. -/
theorem invokeLoop_ne_none (cfg : AdapterConfig) (rop : ResolvedOp) (requestId : String)
    (idemKey : Option String) (t : Int → AttemptResult) :
    ∀ (fuel : Nat) (attempt : Int), 1 ≤ fuel → cfg.maxAttempts ≤ attempt + fuel - 1 →
      invokeLoop cfg rop requestId idemKey t attempt fuel ≠ Option.none := by
  intro fuel
  induction fuel with
  | zero => intro attempt h; omega
  | succ f ih =>
      intro attempt _ hinv
      rw [invokeLoop]
      split
      · simp
      · split
        · dsimp only
          split <;> simp
        · dsimp only
          split
          · simp
          · rename_i hdelay hcond
            have hlt : attempt < cfg.maxAttempts := by
              by_contra hge
              push_neg at hge
              exact hcond (by simp [ge_iff_le, hge])
            refine ih (attempt + 1) (by omega) (by push_cast at hinv ⊢; omega)

/-- With non-negative retry delays the dispatch loop yields a success or a
Parity Error — never the `ValueError` of `_resolve_retry_delay_seconds`. -/
theorem invokeLoop_ok_or_parity (cfg : AdapterConfig) (rop : ResolvedOp) (requestId : String)
    (idemKey : Option String) (t : Int → AttemptResult)
    (hdelay : ∀ a, 0 ≤ cfg.retryDelay a) :
    ∀ (fuel : Nat) (attempt : Int) (r : Except InvokeFailure InvokeSuccess),
      invokeLoop cfg rop requestId idemKey t attempt fuel = some r →
      (∃ s, r = .ok s) ∨ (∃ e, r = .error (.parity e)) := by
  intro fuel
  induction fuel with
  | zero => intro attempt r h; rw [invokeLoop] at h; exact absurd h (by simp)
  | succ f ih =>
      intro attempt r h
      rw [invokeLoop] at h
      split at h
      · exact Or.inl ⟨_, (Option.some.inj h).symm⟩
      · dsimp only at h
        split at h
        · exact Or.inr ⟨_, (Option.some.inj h).symm⟩
        · split at h
          · rename_i hneg
            have := hdelay attempt
            omega
          · exact ih (attempt + 1) r h

/-- A configuration whose constant retry delay is negative (permitted by the
constructor, which validates only `max_attempts`). -/
def cfgNegDelay : AdapterConfig :=
  { transport := "http", maxAttempts := 2, retryStatusCodes := defaultRetryStatusCodes,
    retryCodes := [], retryDelay := fun _ => -1, freshRequestId := "req_fixed" }

/-- **C9 counterexample**: with `max_attempts = 2 >= 1` and a negative
`retry_delay_seconds`, a retryable 503 on the first attempt makes `invoke`
raise the `ValueError` of `_resolve_retry_delay_seconds` from inside the loop
— neither a success result nor a Parity Error. -/
theorem invoke_negative_delay_value_error :
    invoke cfgNegDelay testOperation okPayload Option.none (some "idem-1") Option.none
      (fun _ => .resp resp503) =
      .error (.valueError "retry_delay_seconds must be a non-negative number") := by rfl

/-- **C9 amended**: for every configuration with `max_attempts >= 1`, the
dispatch loop never reaches the fallback error construction after the loop;
and provided every resolved retry delay is non-negative, the loop — and hence
`invoke` — terminates with a success result or a Parity Error. -/
theorem invoke_loop_terminates (cfg : AdapterConfig) (rop : ResolvedOp)
    (requestId : String) (idemKey : Option String) (t : Int → AttemptResult)
    (hmax : 1 ≤ cfg.maxAttempts) :
    (invokeLoop cfg rop requestId idemKey t 1 cfg.maxAttempts.toNat ≠ Option.none) ∧
    ((∀ a, 0 ≤ cfg.retryDelay a) →
      ∀ r, invokeLoop cfg rop requestId idemKey t 1 cfg.maxAttempts.toNat = some r →
        (∃ s, r = .ok s) ∨ (∃ e, r = .error (.parity e))) ∧
    ((∀ a, 0 ≤ cfg.retryDelay a) →
      ∀ (operation payload : PyVal) (reqId idk prev : Option String),
        (∃ s, invoke cfg operation payload reqId idk prev t = .ok s) ∨
        (∃ e, invoke cfg operation payload reqId idk prev t = .error (.parity e))) := by
  refine ⟨?_, ?_, ?_⟩
  · refine invokeLoop_ne_none cfg rop requestId idemKey t cfg.maxAttempts.toNat 1 ?_ ?_
    · omega
    · omega
  · intro hd r h
    exact invokeLoop_ok_or_parity cfg rop requestId idemKey t hd cfg.maxAttempts.toNat 1 r h
  · intro hd operation payload reqId idk prev
    rw [invoke]
    split
    · exact Or.inr ⟨_, rfl⟩
    · rename_i rop' hre
      dsimp only
      split
      · exact Or.inr ⟨_, rfl⟩
      · rcases hloop : invokeLoop cfg rop' ((optStrOrNone reqId).getD cfg.freshRequestId)
            (optStrOrNone idk) t 1 cfg.maxAttempts.toNat with _ | r
        · exact Or.inr ⟨_, rfl⟩
        · rcases invokeLoop_ok_or_parity cfg rop' _ _ t hd cfg.maxAttempts.toNat 1 r hloop with
            ⟨s, rfl⟩ | ⟨e, rfl⟩
          · exact Or.inl ⟨s, rfl⟩
          · exact Or.inr ⟨e, rfl⟩

/-- Witness for the amended C9 at the concrete default configuration. -/
theorem invoke_loop_terminates_witness :
    (invokeLoop testCfg testResolvedOp "req_fixed" (some "idem-1")
      (fun _ => .resp resp400) 1 testCfg.maxAttempts.toNat ≠ Option.none) ∧
    ((∃ s, invoke testCfg testOperation okPayload Option.none (some "idem-1") Option.none
        (fun _ => .resp resp400) = .ok s) ∨
     (∃ e, invoke testCfg testOperation okPayload Option.none (some "idem-1") Option.none
        (fun _ => .resp resp400) = .error (.parity e))) := by
  have h := invoke_loop_terminates testCfg testResolvedOp "req_fixed" (some "idem-1")
    (fun _ => .resp resp400) (by decide)
  exact ⟨h.1, h.2.2 (fun a => by simp [testCfg]) testOperation okPayload Option.none
    (some "idem-1") Option.none⟩

theorem strMkData (s : String) : String.mk s.data = s := by
  cases s
  rfl

theorem hexChar_toLower {c : Char} (h : isLowerHexChar c = true) : c.toLower = c := by
  simp [isLowerHexChar, String.data] at h
  rcases h with rfl | rfl | rfl | rfl | rfl | rfl | rfl | rfl | rfl | rfl | rfl | rfl |
    rfl | rfl | rfl | rfl <;> rfl

theorem hexChar_not_whitespace {c : Char} (h : isLowerHexChar c = true) :
    c.isWhitespace = false := by
  simp [isLowerHexChar, String.data] at h
  rcases h with rfl | rfl | rfl | rfl | rfl | rfl | rfl | rfl | rfl | rfl | rfl | rfl |
    rfl | rfl | rfl | rfl <;> rfl

theorem dropWhile_ws_eq_self {l : List Char} (h : ∀ c ∈ l, c.isWhitespace = false) :
    l.dropWhile Char.isWhitespace = l := by
  cases l with
  | nil => rfl
  | cons c cs => simp [List.dropWhile_cons, h c (List.mem_cons_self c cs)]

/-- A 64-lowercase-hex string is untouched by `strip()` and `lower()`. -/
theorem strip_lower_hex_id {s : String} (h : s.data.all isLowerHexChar = true) :
    pyStrip s = s ∧ pyLower s = s := by
  have hall : ∀ c ∈ s.data, isLowerHexChar c = true := by
    intro c hc
    exact List.all_eq_true.mp h c hc
  constructor
  · rw [pyStrip]
    rw [dropWhile_ws_eq_self (fun c hc => hexChar_not_whitespace (hall c hc))]
    rw [dropWhile_ws_eq_self (fun c hc =>
      hexChar_not_whitespace (hall c (List.mem_reverse.mp hc)))]
    rw [List.reverse_reverse, strMkData]
  · rw [pyLower]
    rw [List.map_congr_left (fun c hc => hexChar_toLower (hall c hc))]
    rw [List.map_id', strMkData]

/-- Lookup in an association list with duplicate-free keys finds any member. -/
theorem pyLookup_unique : ∀ {l : List (String × PyVal)} {k : String} {v : PyVal},
    (l.map Prod.fst).Nodup → (k, v) ∈ l → pyLookup l k = some v
  | [], k, v, _, hmem => absurd hmem (by simp)
  | (k', v') :: rest, k, v, hnd, hmem => by
      rw [List.map_cons, List.nodup_cons] at hnd
      rw [pyLookup]
      rcases List.mem_cons.mp hmem with heq | htail
      · obtain ⟨rfl, rfl⟩ := Prod.mk.inj heq
        rw [if_pos rfl]
      · have hne : k' ≠ k := by
          intro hkk
          have hkmem : k ∈ rest.map Prod.fst := List.mem_map_of_mem Prod.fst htail
          rw [← hkk] at hkmem
          exact hnd.1 hkmem
        rw [if_neg hne]
        exact pyLookup_unique hnd.2 htail

/-- Canonicalizing a key-unique dict keeps every binding reachable: lookup of
a present key returns its canonicalized value. -/
theorem pyLookup_canonicalize_dict {es : List (String × PyVal)} {k : String} {v : PyVal}
    (hnd : (es.map Prod.fst).Nodup) (hmem : (k, v) ∈ es) :
    ∃ es', canonicalize (.dict es) = .dict es' ∧ pyLookup es' k = some (canonicalize v) := by
  refine ⟨List.map canonPair (sortByKey es), canonicalize_dict es, ?_⟩
  have hnd' : ((List.map canonPair (sortByKey es)).map Prod.fst).Nodup := by
    have hfst : (List.map canonPair (sortByKey es)).map Prod.fst =
        (sortByKey es).map Prod.fst := by rw [List.map_map]; rfl
    rw [hfst]
    exact ((es.perm_insertionSort keyLe).map Prod.fst).nodup_iff.mpr hnd
  have hmem' : (k, canonicalize v) ∈ List.map canonPair (sortByKey es) :=
    List.mem_map_of_mem canonPair ((List.mem_insertionSort keyLe).mpr hmem)
  exact pyLookup_unique hnd' hmem'

/-- Canonicalizing an artifact core and appending one fresh hash field keeps
every original binding reachable under its key. -/
theorem lookup_canonical_with_appended (core : List (String × PyVal)) (k newKey : String)
    (v newVal : PyVal)
    (hnd : (core.map Prod.fst).Nodup) (hmem : (k, v) ∈ core)
    (hfresh : newKey ∉ core.map Prod.fst) :
    ∃ es', canonicalize (pyDictSet (canonicalize (.dict core)) newKey newVal) = .dict es' ∧
      pyLookup es' k = some (canonicalize v) := by
  rw [canonicalize_dict]
  have hkeys : ((List.map canonPair (sortByKey core)).map Prod.fst).Perm
      (core.map Prod.fst) := by
    have hfst : (List.map canonPair (sortByKey core)).map Prod.fst =
        (sortByKey core).map Prod.fst := by rw [List.map_map]; rfl
    rw [hfst]
    exact (core.perm_insertionSort keyLe).map Prod.fst
  have hany : (List.map canonPair (sortByKey core)).any
      (fun e => e.1 = newKey) = false := by
    rw [List.any_eq_false]
    intro e he
    simp only [decide_eq_true_eq]
    intro hkey
    exact hfresh (hkeys.subset (hkey ▸ List.mem_map_of_mem Prod.fst he))
  rw [pyDictSet]
  rw [if_neg (by rw [hany]; simp)]
  have hnd2 : (((List.map canonPair (sortByKey core)) ++ [(newKey, newVal)]).map
      Prod.fst).Nodup := by
    rw [List.map_append, List.nodup_append]
    refine ⟨hkeys.nodup_iff.mpr hnd, by simp, ?_⟩
    intro a ha hb
    simp at hb
    subst hb
    exact hfresh (hkeys.subset ha)
  have hmem2 : (k, canonicalize v) ∈
      (List.map canonPair (sortByKey core)) ++ [(newKey, newVal)] :=
    List.mem_append_left _
      (List.mem_map_of_mem canonPair ((List.mem_insertionSort keyLe).mpr hmem))
  obtain ⟨es', heq, hlook⟩ := pyLookup_canonicalize_dict hnd2 hmem2
  exact ⟨es', heq, by rw [hlook, canonicalize_idem]⟩

/-- **C4**: chain construction: signing evidence from an agreement artifact
whose `agreementHash` field is `H` — a 64-lowercase-hex digest, as every
`agreementHash` produced by `create_agreement` is — yields, whenever it
succeeds, an evidence artifact whose `agreementHash` field equals `H`
exactly. -/
theorem signEvidence_chains_agreement_hash (sha256hex : String → String)
    (normIso : PyVal → Bool → String → Except String String)
    (pes aes : List (String × PyVal)) (hash : String) (r : EvidenceResult)
    (hagree : pyLookup pes "agreement" = some (.dict aes))
    (hnokey : pyLookup pes "agreementHash" = Option.none)
    (hhash : pyLookup aes "agreementHash" = some (.str hash))
    (hlen : hash.length = 64) (hhex : hash.data.all isLowerHexChar = true)
    (hok : signEvidence sha256hex normIso (.dict pes) = .ok r) :
    ∃ es', r.evidence = .dict es' ∧ pyLookup es' "agreementHash" = some (.str hash) := by
  obtain ⟨hstrip, hlower⟩ := strip_lower_hex_id hhex
  have hget : (PyVal.dict pes).get "agreement" = .dict aes := by
    simp [PyVal.get, hagree]
  have hgetD : ∀ d, (PyVal.dict pes).getD "agreementHash" d = d := by
    intro d
    simp [PyVal.getD, hnokey]
  have hgetD2 : (PyVal.dict aes).get "agreementHash" = .str hash := by
    simp [PyVal.get, hhash]
  have hassert : assertSha256Hex (.str hash) "agreementHash" = .ok hash := by
    rw [assertSha256Hex]
    dsimp only
    rw [hstrip, hlower]
    simp [hlen, hhex]
  simp only [signEvidence, PyVal.isDict, hget, hgetD, hgetD2, hassert, Bool.not_true,
    Bool.false_eq_true, if_false, if_true, bind, Except.bind, throw, throwThe,
    MonadExceptOf.throw, pure, Except.pure] at hok
  cases hc1 : assertNonEmptyString ((PyVal.dict pes).getD "callId"
      ((PyVal.dict aes).get "callId")) "callId" with
  | error e => rw [hc1] at hok; simp at hok
  | ok callId =>
  rw [hc1] at hok
  dsimp only at hok
  cases hc2 : assertSha256Hex ((PyVal.dict pes).getD "inputHash"
      ((PyVal.dict aes).get "inputHash")) "inputHash" with
  | error e => rw [hc2] at hok; simp at hok
  | ok inputHash =>
  rw [hc2] at hok
  dsimp only at hok
  cases hc3 : normIso ((PyVal.dict pes).get "startedAt") true "startedAt" with
  | error e => rw [hc3] at hok; simp at hok
  | ok startedAt =>
  rw [hc3] at hok
  dsimp only at hok
  cases hc4 : normIso ((PyVal.dict pes).getD "completedAt" (.str startedAt)) true
      "completedAt" with
  | error e => rw [hc4] at hok; simp at hok
  | ok completedAt =>
  rw [hc4] at hok
  dsimp only at hok
  cases hc5 : normIso ((PyVal.dict pes).getD "createdAt" (.str completedAt)) true
      "createdAt" with
  | error e => rw [hc5] at hok; simp at hok
  | ok createdAt =>
  rw [hc5] at hok
  dsimp only at hok
  have hr := (Except.ok.inj hok).symm
  rw [hr]
  dsimp only
  have hcore := lookup_canonical_with_appended
    [("schemaVersion", PyVal.str "ToolCallEvidence.v1"), ("agreementHash", PyVal.str hash),
     ("callId", PyVal.str callId), ("inputHash", PyVal.str inputHash),
     ("outputHash",
       PyVal.str (sha256hex (canonicalJsonDumps ((PyVal.dict pes).getD "output" (PyVal.dict []))))),
     ("outputRef", optToPyStr (pyStrOrNone ((PyVal.dict pes).get "outputRef"))),
     ("metrics", (PyVal.dict pes).get "metrics"), ("startedAt", PyVal.str startedAt),
     ("completedAt", PyVal.str completedAt), ("createdAt", PyVal.str createdAt)]
    "agreementHash" "evidenceHash" (PyVal.str hash)
    (PyVal.str (sha256hex (canonicalJsonDumps (canonicalize
      (PyVal.dict
        [("schemaVersion", PyVal.str "ToolCallEvidence.v1"), ("agreementHash", PyVal.str hash),
         ("callId", PyVal.str callId), ("inputHash", PyVal.str inputHash),
         ("outputHash",
           PyVal.str (sha256hex (canonicalJsonDumps ((PyVal.dict pes).getD "output" (PyVal.dict []))))),
         ("outputRef", optToPyStr (pyStrOrNone ((PyVal.dict pes).get "outputRef"))),
         ("metrics", (PyVal.dict pes).get "metrics"), ("startedAt", PyVal.str startedAt),
         ("completedAt", PyVal.str completedAt), ("createdAt", PyVal.str createdAt)])))))
    (by simp) (by simp) (by simp)
  obtain ⟨es', heq, hlook⟩ := hcore
  refine ⟨es', heq, ?_⟩
  rw [hlook]
  simp [canonicalize]

def testAgreementEntries : List (String × PyVal) :=
  [("agreementHash", .str (String.mk (List.replicate 64 'a'))),
   ("callId", .str "call-1"),
   ("inputHash", .str (String.mk (List.replicate 64 'b')))]

def testEvidenceParams : PyVal := .dict [("agreement", .dict testAgreementEntries)]

/-- Witness for C4 at a concrete agreement artifact. -/
theorem signEvidence_chains_agreement_hash_witness :
    ∃ (r : EvidenceResult) (es' : List (String × PyVal)),
      signEvidence (fun _ => String.mk (List.replicate 64 'c'))
        (fun _ _ _ => .ok "2024-01-01T00:00:00.000Z") testEvidenceParams = .ok r ∧
      r.evidence = .dict es' ∧
      pyLookup es' "agreementHash" = some (.str (String.mk (List.replicate 64 'a'))) := by
  obtain ⟨r, hr⟩ : ∃ r, signEvidence (fun _ => String.mk (List.replicate 64 'c'))
      (fun _ _ _ => .ok "2024-01-01T00:00:00.000Z") testEvidenceParams = .ok r := ⟨_, rfl⟩
  obtain ⟨es', h1, h2⟩ := signEvidence_chains_agreement_hash
    (fun _ => String.mk (List.replicate 64 'c')) (fun _ _ _ => .ok "2024-01-01T00:00:00.000Z")
    [("agreement", .dict testAgreementEntries)] testAgreementEntries
    (String.mk (List.replicate 64 'a')) r rfl rfl rfl (by decide) (by decide) hr
  exact ⟨r, es', hr, h1, h2⟩
